import Mathlib

/-!
# The Kaa platform protocol: request compiler and response demultiplexer

A shallow embedding of `client/client-multi/client-c/src/kaa_platform_protocol.c`.

* The feature managers, the status store, the generated Avro code and the buffer
  allocator are external to that file.  They are the fields of `Collaborators`,
  each a function on a world state `σ` that the embedding threads through the calls
  in the order the C code makes them.
* Every external call is also recorded, with its arguments and its results, in a list
  of `Call`s in chronological order, so that "is invoked", "is never invoked" and
  "with which request id" are statements about that list.
* A pointer is an `Option` (`none` is `NULL`).  A `kaa_union_t` keeps the branch tag and
  the data pointer apart, as the C structure does.
* An allocation whose result the source tests for `NULL` may fail (an oracle in
  `Collaborators`); an allocation whose result the source uses untested is taken to
  succeed.
* The embedding is of the default build: neither `KAA_DISABLE_FEATURE_EVENTS` nor
  `KAA_DISABLE_FEATURE_LOGGING` is defined.
* Reading through a `NULL` pointer has no defined behaviour in C; the embedding makes
  it the outcome `Outcome.null_dereference`.
-/

namespace Kaa

/-! ## Error codes, constants and tags -/

/-- The C enumeration `kaa_error_t`, an `int`; `if (error)` tests it against zero. -/
abbrev kaa_error_t := Int

/-- Modelled from the spec: `kaa_error.h` is not among the sources. Success; the source tests
`!error`, so it is zero. -/
def KAA_ERR_NONE : kaa_error_t := 0

/-- Modelled from the spec: `kaa_error.h` is not among the sources. The spec's `OutOfMemory`. -/
def KAA_ERR_NOMEM : kaa_error_t := -1

/-- Modelled from the spec: `kaa_error.h` is not among the sources. The spec's `BadParameter`. -/
def KAA_ERR_BADPARAM : kaa_error_t := -3

/-- Modelled from the spec: `kaa_error.h` is not among the sources. The spec's `WriteFailed`. -/
def KAA_ERR_WRITE_FAILED : kaa_error_t := -5

/-- Modelled from the spec: `kaa_common.h` is not among the sources. Length of a digest:
the spec's `bytes[20]`. -/
def SHA_1_DIGEST_LENGTH : Nat := 20

/-- Modelled from the spec: the enumeration `kaa_service_t` (`kaa_common.h`) is not among the
sources. The three tags the `switch` of `kaa_compile_request` names, and `other` for every
other value of the enumeration (the `default:` case). -/
inductive kaa_service_t
  | KAA_SERVICE_EVENT
  | KAA_SERVICE_PROFILE
  | KAA_SERVICE_LOGGING
  | other (tag : Nat)
deriving DecidableEq, Repr

open kaa_service_t

/-- Modelled from the spec: `gen/kaa_endpoint_gen.h` is not among the sources. The tag
`KAA_UNION_..._OR_NULL_BRANCH_0` of every generated union: the branch that holds a value, the
spec's Present. -/
def BRANCH_0 : Nat := 0

/-- Modelled from the spec: `gen/kaa_endpoint_gen.h` is not among the sources. The tag
`KAA_UNION_..._OR_NULL_BRANCH_1` of every generated union: the null branch, the spec's
Absent. -/
def BRANCH_1 : Nat := 1

/-! ## Data model -/

/-- Modelled from the spec: the declaration of `kaa_union_t` is not among the sources. The
fields the source reads and writes: the branch tag `type` and the pointer `data`. -/
structure kaa_union_t (α : Type) where
  type : Nat
  data : Option α
deriving DecidableEq, Repr

/-- Modelled from the spec: the generated `kaa_union_..._or_null_branch_0_create` is not among
the sources. A union tagged branch 0 whose data pointer is still null. -/
def branch_0_create {α : Type} : kaa_union_t α := ⟨BRANCH_0, none⟩

/-- Modelled from the spec: the generated `kaa_union_..._or_null_branch_1_create` is not among
the sources. A union tagged branch 1, the spec's Absent, without data. -/
def branch_1_create {α : Type} : kaa_union_t α := ⟨BRANCH_1, none⟩

/-- A digest as the status store hands it out: its bytes. -/
abbrev kaa_digest := List Nat

/-- Modelled from the spec: the declaration of `kaa_bytes_t` is not among the sources. A byte
buffer with its size. -/
structure kaa_bytes_t where
  buffer : List Nat
  size : Nat
deriving DecidableEq, Repr

/-- Modelled from the spec: `kaa_bytes_copy_create` is not among the sources. A copy of the
first `size` bytes of `data`. -/
def kaa_bytes_copy_create (data : List Nat) (size : Nat) : kaa_bytes_t :=
  ⟨data.take size, size⟩

/-- The section contents are not looked into by this file of the source: a content is
identified by a number. -/
abbrev content_t := Nat

/-- Modelled from the spec: the generated `kaa_sync_request_meta_data_t` is not among the
sources. The four fields `create_sync_request_meta_data` assigns, the spec's `Metadata`. -/
structure kaa_sync_request_meta_data_t where
  application_token : String
  timeout : Nat
  endpoint_public_key_hash : Option kaa_bytes_t
  profile_hash : Option (kaa_union_t kaa_bytes_t)
deriving DecidableEq, Repr

/-- Modelled from the spec: the generated `kaa_sync_request_t` is not among the sources. The
eight union pointers `kaa_compile_request` assigns, each to a freshly created union. -/
structure kaa_sync_request_t where
  request_id : kaa_union_t Nat
  sync_request_meta_data : kaa_union_t kaa_sync_request_meta_data_t
  user_sync_request : kaa_union_t content_t
  event_sync_request : kaa_union_t content_t
  log_sync_request : kaa_union_t content_t
  notification_sync_request : kaa_union_t content_t
  configuration_sync_request : kaa_union_t content_t
  profile_sync_request : kaa_union_t content_t
deriving DecidableEq, Repr

/-- Modelled from the spec: the generated `kaa_event_sync_response_t` is not among the sources.
The two union pointers lines 255-260 read. -/
structure kaa_event_sync_response_t where
  event_sequence_number_response : Option (kaa_union_t content_t)
  events : Option (kaa_union_t (List content_t))
deriving DecidableEq, Repr

/-- Modelled from the spec: the generated `kaa_user_sync_response_t` is not among the sources.
The three union pointers lines 273-286 read. -/
structure kaa_user_sync_response_t where
  user_attach_response : Option (kaa_union_t content_t)
  user_attach_notification : Option (kaa_union_t content_t)
  user_detach_notification : Option (kaa_union_t content_t)
deriving DecidableEq, Repr

/-- Modelled from the spec: the generated `kaa_sync_response_t` is not among the sources. The
five union pointers `kaa_platform_protocol_process_server_sync` reads. -/
structure kaa_sync_response_t where
  request_id : Option (kaa_union_t Nat)
  event_sync_response : Option (kaa_union_t kaa_event_sync_response_t)
  user_sync_response : Option (kaa_union_t kaa_user_sync_response_t)
  profile_sync_response : Option (kaa_union_t content_t)
  log_sync_response : Option (kaa_union_t content_t)
deriving DecidableEq, Repr

/-- The C `struct kaa_platform_protocol_t`: the request counter, a `uint32_t`. The context
pointer is the `Collaborators` record and the world state. -/
structure kaa_platform_protocol_t where
  request_id : Nat
deriving DecidableEq, Repr

/-- One call to an external function, with its arguments and what it returned. -/
inductive Call
  | kaa_status_get_endpoint_public_key_hash (error : kaa_error_t) (out : Option kaa_digest)
  | kaa_status_get_profile_hash (error : kaa_error_t) (out : Option kaa_digest)
  | kaa_user_compile_request (requestId : Nat) (error : kaa_error_t) (out : Option content_t)
  | kaa_event_compile_request (requestId : Nat) (error : kaa_error_t) (out : Option content_t)
  | kaa_profile_need_profile_resync (error : kaa_error_t) (result : Bool)
  | kaa_profile_compile_request (error : kaa_error_t) (out : Option content_t)
  | kaa_logging_compile_request (error : kaa_error_t) (out : Option content_t)
  | allocator (size : Nat) (buffer : Option Nat)
  | serialize (request : kaa_sync_request_t) (buffer : Nat) (size : Nat)
  | kaa_event_handle_sync (request_id : Nat) (event_sn_response : Option content_t)
      (events : Option (List content_t)) (error : kaa_error_t)
  | kaa_user_manager_handle_sync (user_attach_response : Option content_t)
      (attach : Option content_t) (detach : Option content_t) (error : kaa_error_t)
  | kaa_profile_handle_sync (profile : Option content_t) (error : kaa_error_t)
  | kaa_logging_handle_sync (response : Option content_t) (error : kaa_error_t)
  | kaa_status_save (error : kaa_error_t)
deriving DecidableEq, Repr

/-- A caller-supplied `kaa_buffer_alloc_fn`: from the allocator context (in the world) and a
size to a buffer, or `NULL`. -/
abbrev kaa_buffer_alloc_fn (σ : Type) := σ → Nat → Option Nat × σ

/-- The functions this file of the source calls and does not define, over a world state `σ`.
An output parameter is returned as the value the slot holds after the call. -/
structure Collaborators (σ : Type) where
  /-- The string constant of `kaa_defaults.h`. -/
  APPLICATION_TOKEN : String
  kaa_status_get_endpoint_public_key_hash : σ → kaa_error_t × Option kaa_digest × σ
  kaa_status_get_profile_hash : σ → kaa_error_t × Option kaa_digest × σ
  kaa_status_save : σ → kaa_error_t × σ
  kaa_user_compile_request : σ → Nat → kaa_error_t × Option content_t × σ
  kaa_event_compile_request : σ → Nat → kaa_error_t × Option content_t × σ
  kaa_profile_need_profile_resync : σ → kaa_error_t × Bool × σ
  kaa_profile_compile_request : σ → kaa_error_t × Option content_t × σ
  kaa_logging_compile_request : σ → kaa_error_t × Option content_t × σ
  kaa_event_handle_sync : σ → Nat → Option content_t → Option (List content_t) → kaa_error_t × σ
  kaa_user_manager_handle_sync :
    σ → Option content_t → Option content_t → Option content_t → kaa_error_t × σ
  kaa_profile_handle_sync : σ → Option content_t → kaa_error_t × σ
  kaa_logging_handle_sync : σ → Option content_t → kaa_error_t × σ
  /-- The generated `get_size` method of a request. -/
  get_size : kaa_sync_request_t → Nat
  /-- The generated `kaa_sync_response_deserialize`, applied to the bytes of the buffer. -/
  kaa_sync_response_deserialize : List Nat → Option kaa_sync_response_t
  /-- Whether `kaa_sync_request_create` returns a request (line 95, tested on line 96). -/
  kaa_sync_request_create : σ → Bool × σ
  /-- Whether `kaa_union_bytes_or_null_branch_0_create` returns a union (line 79, tested on
  line 80). -/
  kaa_union_bytes_or_null_branch_0_create : σ → Bool × σ
  /-- Whether `kaa_union_profile_sync_request_or_null_branch_0_create` returns a union
  (line 138, tested on line 140). -/
  kaa_union_profile_sync_request_or_null_branch_0_create : σ → Bool × σ
  /-- Whether the `KAA_MALLOC` of `kaa_platform_protocol_create` returns memory (line 193). -/
  KAA_MALLOC : σ → Bool × σ

/-! ## The request compiler -/

/-- The source's `create_sync_request_meta_data` (lines 58-89). The errors of the two status
reads are dropped, as on lines 65-67 and 74-76. -/
def create_sync_request_meta_data {σ : Type} (env : Collaborators σ) (w : σ) :
    kaa_sync_request_meta_data_t × σ × List Call :=
  let k := env.kaa_status_get_endpoint_public_key_hash w
  let pub_key_hash := k.2.1
  let endpoint_public_key_hash :=
    match pub_key_hash with
    | some d => some (kaa_bytes_copy_create d SHA_1_DIGEST_LENGTH)
    | none => none
  let p := env.kaa_status_get_profile_hash k.2.2
  let profile_hash := p.2.1
  let calls := [Call.kaa_status_get_endpoint_public_key_hash k.1 k.2.1,
                Call.kaa_status_get_profile_hash p.1 p.2.1]
  match profile_hash with
  | some d =>
    let a := env.kaa_union_bytes_or_null_branch_0_create p.2.2
    if a.1 then
      (⟨env.APPLICATION_TOKEN, 60000, endpoint_public_key_hash,
        some ⟨BRANCH_0, some (kaa_bytes_copy_create d SHA_1_DIGEST_LENGTH)⟩⟩, a.2, calls)
    else
      (⟨env.APPLICATION_TOKEN, 60000, endpoint_public_key_hash, none⟩, a.2, calls)
  | none =>
    (⟨env.APPLICATION_TOKEN, 60000, endpoint_public_key_hash, some branch_1_create⟩,
      p.2.2, calls)

/-- What `kaa_compile_request` leaves behind: the value returned, the caller's `sync_request`
and `buffer_size` (which the caller initialises to `NULL` and `0`, and which are written on
success only), the world, and the external calls made, in order. -/
structure CompileResult (σ : Type) where
  error : kaa_error_t
  request_p : Option kaa_sync_request_t
  result_size : Nat
  world : σ
  calls : List Call

/-- The `for` loop of `kaa_compile_request` (lines 116-171) followed by lines 173-175, over the
services still to be visited, in the order the loop visits them. `request_id` is
`self->request_id`. -/
def compile_services {σ : Type} (env : Collaborators σ) (request_id : Nat) :
    List kaa_service_t → kaa_sync_request_t → σ → CompileResult σ
  | [], request, w => ⟨KAA_ERR_NONE, some request, env.get_size request, w, []⟩
  | KAA_SERVICE_EVENT :: rest, request, w =>
    let r := env.kaa_event_compile_request w request_id
    let next := compile_services env request_id rest
      { request with event_sync_request := ⟨BRANCH_0, r.2.1⟩ } r.2.2
    { next with calls := Call.kaa_event_compile_request request_id r.1 r.2.1 :: next.calls }
  | KAA_SERVICE_PROFILE :: rest, request, w =>
    let r := env.kaa_profile_need_profile_resync w
    let need_resync := r.2.1
    let check := Call.kaa_profile_need_profile_resync r.1 need_resync
    if r.1 ≠ 0 then
      ⟨r.1, none, 0, r.2.2, [check]⟩
    else if need_resync then
      let a := env.kaa_union_profile_sync_request_or_null_branch_0_create r.2.2
      if a.1 then
        let g := env.kaa_profile_compile_request a.2
        let generate := Call.kaa_profile_compile_request g.1 g.2.1
        if g.1 ≠ 0 then
          ⟨g.1, none, 0, g.2.2, [check, generate]⟩
        else
          let next := compile_services env request_id rest
            { request with profile_sync_request := ⟨BRANCH_0, g.2.1⟩ } g.2.2
          { next with calls := check :: generate :: next.calls }
      else
        ⟨KAA_ERR_NOMEM, none, 0, a.2, [check]⟩
    else
      let next := compile_services env request_id rest request r.2.2
      { next with calls := check :: next.calls }
  | KAA_SERVICE_LOGGING :: rest, request, w =>
    let r := env.kaa_logging_compile_request w
    let log_request := r.2.1
    let request1 :=
      match log_request with
      | some d => { request with log_sync_request := ⟨BRANCH_0, some d⟩ }
      | none => request
    let next := compile_services env request_id rest request1 r.2.2
    { next with calls := Call.kaa_logging_compile_request r.1 log_request :: next.calls }
  | other _ :: rest, request, w => compile_services env request_id rest request w

/-- The source's `kaa_compile_request` (lines 92-176). `for (;service_count--;)` reads
`services[service_count-1]` down to `services[0]`: the loop visits `services.reverse`. -/
def kaa_compile_request {σ : Type} (env : Collaborators σ) (self : kaa_platform_protocol_t)
    (services : List kaa_service_t) (w : σ) : CompileResult σ :=
  let c := env.kaa_sync_request_create w
  if c.1 then
    let m := create_sync_request_meta_data env c.2
    let u := env.kaa_user_compile_request m.2.1 self.request_id
    let request : kaa_sync_request_t :=
      { request_id := ⟨BRANCH_0, some self.request_id⟩
        sync_request_meta_data := ⟨BRANCH_0, some m.1⟩
        user_sync_request := ⟨BRANCH_0, u.2.1⟩
        event_sync_request := branch_1_create
        log_sync_request := branch_1_create
        notification_sync_request := branch_1_create
        configuration_sync_request := branch_1_create
        profile_sync_request := branch_1_create }
    let next := compile_services env self.request_id services.reverse request u.2.2
    { next with
      calls := m.2.2 ++ Call.kaa_user_compile_request self.request_id u.1 u.2.1 :: next.calls }
  else
    ⟨KAA_ERR_NOMEM, none, 0, c.2, []⟩

/-! ## The serializer and the public operations -/

/-- The source's `kaa_serialize_request` (lines 179-186). -/
def kaa_serialize_request (request : Option kaa_sync_request_t) (buffer : Option Nat)
    (request_size : Nat) : kaa_error_t × List Call :=
  match request, buffer with
  | some r, some b => (KAA_ERR_NONE, [Call.serialize r b request_size])
  | _, _ => (KAA_ERR_BADPARAM, [])

/-- The source's `kaa_platform_protocol_create` (lines 189-199): the value returned and
`*platform_protocol_p`. The two pointer arguments are given by whether they are non-null. -/
def kaa_platform_protocol_create {σ : Type} (env : Collaborators σ)
    (platform_protocol_p : Bool) (context : Bool) (w : σ) :
    kaa_error_t × Option kaa_platform_protocol_t × σ :=
  if platform_protocol_p && context then
    let a := env.KAA_MALLOC w
    if a.1 then (KAA_ERR_NONE, some ⟨0⟩, a.2) else (KAA_ERR_NOMEM, none, a.2)
  else
    (KAA_ERR_BADPARAM, none, w)

/-- What a public operation leaves behind: the value returned, the protocol object, the world
and the external calls made, in order. -/
structure SyncResult (σ : Type) where
  error : kaa_error_t
  self : Option kaa_platform_protocol_t
  world : σ
  calls : List Call

/-- The source's `kaa_platform_protocol_serialize_client_sync` (lines 211-232). `services` is
the array with its `services_count` elements, `none` for a null pointer; the counter is a
`uint32_t`, so `request_id++` wraps at `2^32`. -/
def kaa_platform_protocol_serialize_client_sync {σ : Type} (env : Collaborators σ)
    (self : Option kaa_platform_protocol_t) (services : Option (List kaa_service_t))
    (allocator : Option (kaa_buffer_alloc_fn σ)) (w : σ) : SyncResult σ :=
  match self, services, allocator with
  | some self, some services, some allocator =>
    if services.length = 0 then
      ⟨KAA_ERR_BADPARAM, some self, w, []⟩
    else
      let self1 : kaa_platform_protocol_t := { self with request_id := (self.request_id + 1) % 2 ^ 32 }
      let c := kaa_compile_request env self1 services w
      if c.error = 0 then
        let b := allocator c.world c.result_size
        let buffer := b.1
        let alloc := Call.allocator c.result_size buffer
        match buffer with
        | some _ =>
          let s := kaa_serialize_request c.request_p buffer c.result_size
          ⟨s.1, some self1, b.2, c.calls ++ alloc :: s.2⟩
        | none =>
          ⟨KAA_ERR_WRITE_FAILED, some self1, b.2, c.calls ++ [alloc]⟩
      else
        ⟨c.error, some self1, c.world, c.calls⟩
  | _, _, _ => ⟨KAA_ERR_BADPARAM, self, w, []⟩

/-! ## The response demultiplexer -/

/-- How a run of C code ends: it returns, or it reads through a null pointer. -/
inductive Outcome (α : Type)
  | returned (a : α)
  | null_dereference

/-- Lines 246-249: the request id of the response. `*data` is read when the union is there and
tagged branch 0. -/
def responseId (response : kaa_sync_response_t) : Outcome Nat :=
  match response.request_id with
  | some u =>
    if u.type = BRANCH_0 then
      match u.data with
      | some v => Outcome.returned v
      | none => Outcome.null_dereference
    else Outcome.returned 0
  | none => Outcome.returned 0

/-- Lines 250-263: `received_events` and `event_sn_response`, in this order of the pair. The
test on line 255 asks `ev_response != NULL`; the test on line 258 reads
`ev_response->event_sequence_number_response` without asking. -/
def event_parts (response : kaa_sync_response_t) :
    Outcome (Option (List content_t) × Option content_t) :=
  match response.event_sync_response with
  | some u =>
    if u.type = BRANCH_0 then
      let ev_response := u.data
      let received_events : Option (List content_t) :=
        match ev_response with
        | some ev =>
          match ev.events with
          | some l => if l.type = BRANCH_0 then l.data else none
          | none => none
        | none => none
      match ev_response with
      | some ev =>
        match ev.event_sequence_number_response with
        | some n =>
          Outcome.returned (received_events, if n.type = BRANCH_0 then n.data else none)
        | none => Outcome.returned (received_events, none)
      | none => Outcome.null_dereference
    else Outcome.returned (none, none)
  | none => Outcome.returned (none, none)

/-- The value a union pointer designates when it is there and tagged branch 0, and `NULL`
otherwise: the pattern of lines 273-287. -/
def branch_0_data {α : Type} (u : Option (kaa_union_t α)) : Option α :=
  match u with
  | some v => if v.type = BRANCH_0 then v.data else none
  | none => none

/-- Lines 266-292: the dispatch of the user section. -/
def dispatch_user {σ : Type} (env : Collaborators σ) (response : kaa_sync_response_t) (w : σ) :
    σ × List Call :=
  match response.user_sync_response with
  | some u =>
    if u.type = BRANCH_0 then
      match u.data with
      | some usr_response =>
        let usr_attach_response := branch_0_data usr_response.user_attach_response
        let usr_attach_notif := branch_0_data usr_response.user_attach_notification
        let usr_detach_notif := branch_0_data usr_response.user_detach_notification
        let r := env.kaa_user_manager_handle_sync w
          usr_attach_response usr_attach_notif usr_detach_notif
        (r.2, [Call.kaa_user_manager_handle_sync
          usr_attach_response usr_attach_notif usr_detach_notif r.1])
      | none => (w, [])
    else (w, [])
  | none => (w, [])

/-- Lines 294-297: the dispatch of the profile section. -/
def dispatch_profile {σ : Type} (env : Collaborators σ) (response : kaa_sync_response_t)
    (w : σ) : σ × List Call :=
  match response.profile_sync_response with
  | some u =>
    if u.type = BRANCH_0 then
      let r := env.kaa_profile_handle_sync w u.data
      (r.2, [Call.kaa_profile_handle_sync u.data r.1])
    else (w, [])
  | none => (w, [])

/-- Lines 300-303: the dispatch of the logging section. -/
def dispatch_logging {σ : Type} (env : Collaborators σ) (response : kaa_sync_response_t)
    (w : σ) : σ × List Call :=
  match response.log_sync_response with
  | some u =>
    if u.type = BRANCH_0 then
      let r := env.kaa_logging_handle_sync w u.data
      (r.2, [Call.kaa_logging_handle_sync u.data r.1])
    else (w, [])
  | none => (w, [])

/-- The source's `kaa_platform_protocol_process_server_sync` (lines 236-310). `buffer` is the
array with its `buffer_size` bytes, `none` for a null pointer. The result of the deserializer is
used untested (line 247), and the values the handlers and `kaa_status_save` return are
dropped. -/
def kaa_platform_protocol_process_server_sync {σ : Type} (env : Collaborators σ)
    (self : Option kaa_platform_protocol_t) (buffer : Option (List Nat)) (w : σ) :
    Outcome (SyncResult σ) :=
  match self, buffer with
  | some self, some buffer =>
    if buffer.length = 0 then
      Outcome.returned ⟨KAA_ERR_BADPARAM, some self, w, []⟩
    else
      match env.kaa_sync_response_deserialize buffer with
      | none => Outcome.null_dereference
      | some response =>
        match responseId response with
        | Outcome.null_dereference => Outcome.null_dereference
        | Outcome.returned id =>
          match event_parts response with
          | Outcome.null_dereference => Outcome.null_dereference
          | Outcome.returned (received_events, event_sn_response) =>
            let e := env.kaa_event_handle_sync w id event_sn_response received_events
            let u := dispatch_user env response e.2
            let p := dispatch_profile env response u.1
            let l := dispatch_logging env response p.1
            let s := env.kaa_status_save l.1
            Outcome.returned ⟨KAA_ERR_NONE, some self, s.2,
              Call.kaa_event_handle_sync id event_sn_response received_events e.1
                :: (u.2 ++ p.2 ++ l.2 ++ [Call.kaa_status_save s.1])⟩
  | _, _ => Outcome.returned ⟨KAA_ERR_BADPARAM, self, w, []⟩

/-! ## Vocabulary of the properties -/

/-- A run of consecutive calls of `kaa_platform_protocol_serialize_client_sync` on one protocol
object, each with its feature list and its allocator; the results, in order. -/
def client_syncs {σ : Type} (env : Collaborators σ) :
    List (List kaa_service_t × kaa_buffer_alloc_fn σ) → kaa_platform_protocol_t → σ →
    List (SyncResult σ)
  | [], _, _ => []
  | (services, allocator) :: rest, self, w =>
    let r := kaa_platform_protocol_serialize_client_sync env (some self) (some services)
      (some allocator) w
    r :: client_syncs env rest (r.self.getD self) r.world

/-- The external call `c` carries the request id `k` wherever it carries a request id: as the
argument of the user or event manager, or in the envelope handed to the serializer. -/
def uses_request_id (k : Nat) : Call → Prop
  | Call.kaa_user_compile_request id _ _ => id = k
  | Call.kaa_event_compile_request id _ _ => id = k
  | Call.serialize request _ _ => request.request_id = ⟨BRANCH_0, some k⟩
  | _ => True

/-- The result of the last call of a list that `f` selects. -/
def last_result {α : Type} (f : Call → Option α) : List Call → Option α
  | [] => none
  | c :: cs =>
    match last_result f cs with
    | some a => some a
    | none => f c

/-- The content a call of the logging manager's compile operation produced, if any. -/
def logging_produced : Call → Option content_t
  | Call.kaa_logging_compile_request _ out => out
  | _ => none

/-- The feature whose `case` of the `switch` in `kaa_compile_request` makes the call. -/
def service_of : Call → Option kaa_service_t
  | Call.kaa_event_compile_request _ _ _ => some KAA_SERVICE_EVENT
  | Call.kaa_profile_need_profile_resync _ _ => some KAA_SERVICE_PROFILE
  | Call.kaa_profile_compile_request _ _ => some KAA_SERVICE_PROFILE
  | Call.kaa_logging_compile_request _ _ => some KAA_SERVICE_LOGGING
  | _ => none

/-- The error of a call to the profile manager (resync check or content generation) that
failed. -/
def profile_failure : Call → Option kaa_error_t
  | Call.kaa_profile_need_profile_resync e _ => if e = 0 then none else some e
  | Call.kaa_profile_compile_request e _ => if e = 0 then none else some e
  | _ => none

/-- The call is one to the buffer allocator or to the serializer. -/
def is_output_call : Call → Bool
  | Call.allocator _ _ => true
  | Call.serialize _ _ _ => true
  | _ => false

/-- The call is one to the user manager's compile operation. -/
def is_user_compile : Call → Bool
  | Call.kaa_user_compile_request _ _ _ => true
  | _ => false

/-- The call is one to the user manager's handler. -/
def is_user_handle : Call → Bool
  | Call.kaa_user_manager_handle_sync _ _ _ _ => true
  | _ => false

/-- The call is one to the event manager's handler. -/
def is_event_handle : Call → Bool
  | Call.kaa_event_handle_sync _ _ _ _ => true
  | _ => false

/-- The call is one to a handler of a feature manager or to the status-persist operation. -/
def is_dispatch_call : Call → Bool
  | Call.kaa_event_handle_sync _ _ _ _ => true
  | Call.kaa_user_manager_handle_sync _ _ _ _ => true
  | Call.kaa_profile_handle_sync _ _ => true
  | Call.kaa_logging_handle_sync _ _ => true
  | Call.kaa_status_save _ => true
  | _ => false

/-- The two extractions that read through a data pointer find one: a request id tagged
branch 0 has its number, and an event section tagged branch 0 has its payload. -/
def extraction_defined (response : kaa_sync_response_t) : Prop :=
  (∀ u, response.request_id = some u → u.type = BRANCH_0 → u.data ≠ none) ∧
  (∀ u, response.event_sync_response = some u → u.type = BRANCH_0 → u.data ≠ none)

/-- The tag is one the `switch` of `kaa_compile_request` names. -/
def is_recognised : kaa_service_t → Bool
  | other _ => false
  | _ => true

/-- The call is one to the profile manager's handler. -/
def is_profile_handle : Call → Bool
  | Call.kaa_profile_handle_sync _ _ => true
  | _ => false

/-- The call is one to the logging manager's handler. -/
def is_logging_handle : Call → Bool
  | Call.kaa_logging_handle_sync _ _ => true
  | _ => false

/-- The call is one to the status-persist operation. -/
def is_status_save : Call → Bool
  | Call.kaa_status_save _ => true
  | _ => false

/-- The place of a call in the order Event, User, Profile, Logging, status-persist; `0` for
a call that is none of these. -/
def dispatch_rank : Call → Nat
  | Call.kaa_event_handle_sync _ _ _ _ => 1
  | Call.kaa_user_manager_handle_sync _ _ _ _ => 2
  | Call.kaa_profile_handle_sync _ _ => 3
  | Call.kaa_logging_handle_sync _ _ => 4
  | Call.kaa_status_save _ => 5
  | _ => 0

/-- The error a handler or the status-persist operation returned, for a call to one of
them. -/
def dispatch_error : Call → Option kaa_error_t
  | Call.kaa_event_handle_sync _ _ _ e => some e
  | Call.kaa_user_manager_handle_sync _ _ _ e => some e
  | Call.kaa_profile_handle_sync _ e => some e
  | Call.kaa_logging_handle_sync _ e => some e
  | Call.kaa_status_save e => some e
  | _ => none

/-- The collaborators the loop of `kaa_compile_request` calls give results that do not depend
on the calls made before: the event, profile and logging managers and the tested allocation
of the profile union answer alike in every world. -/
def history_independent {σ : Type} (env : Collaborators σ) : Prop :=
  (∀ s t id, (env.kaa_event_compile_request s id).1 = (env.kaa_event_compile_request t id).1 ∧
    (env.kaa_event_compile_request s id).2.1 = (env.kaa_event_compile_request t id).2.1) ∧
  (∀ s t, (env.kaa_profile_need_profile_resync s).1 = (env.kaa_profile_need_profile_resync t).1 ∧
    (env.kaa_profile_need_profile_resync s).2.1 = (env.kaa_profile_need_profile_resync t).2.1) ∧
  (∀ s t, (env.kaa_union_profile_sync_request_or_null_branch_0_create s).1 =
    (env.kaa_union_profile_sync_request_or_null_branch_0_create t).1) ∧
  (∀ s t, (env.kaa_profile_compile_request s).1 = (env.kaa_profile_compile_request t).1 ∧
    (env.kaa_profile_compile_request s).2.1 = (env.kaa_profile_compile_request t).2.1) ∧
  (∀ s t, (env.kaa_logging_compile_request s).1 = (env.kaa_logging_compile_request t).1 ∧
    (env.kaa_logging_compile_request s).2.1 = (env.kaa_logging_compile_request t).2.1)

/-- What the loop of `kaa_compile_request` returns and outputs when its collaborators answer
as they do in the world `w0`, given which of the three tags the feature list holds: a failing
profile step decides the error, and otherwise each section of a tag that occurs is filled as
one visit of that tag fills it. -/
def loop_outcome {σ : Type} (env : Collaborators σ) (request_id : Nat) (w0 : σ)
    (event profile logging : Bool) (request : kaa_sync_request_t) :
    kaa_error_t × Option kaa_sync_request_t :=
  let r := env.kaa_profile_need_profile_resync w0
  let a := env.kaa_union_profile_sync_request_or_null_branch_0_create w0
  let g := env.kaa_profile_compile_request w0
  if profile = true ∧ r.1 ≠ 0 then (r.1, none)
  else if profile = true ∧ r.2.1 = true ∧ a.1 = false then (KAA_ERR_NOMEM, none)
  else if profile = true ∧ r.2.1 = true ∧ g.1 ≠ 0 then (g.1, none)
  else
    (KAA_ERR_NONE, some
      { request with
        event_sync_request :=
          if event = true then ⟨BRANCH_0, (env.kaa_event_compile_request w0 request_id).2.1⟩
          else request.event_sync_request
        profile_sync_request :=
          if profile = true ∧ r.2.1 = true then ⟨BRANCH_0, g.2.1⟩
          else request.profile_sync_request
        log_sync_request :=
          if logging = true then
            match (env.kaa_logging_compile_request w0).2.1 with
            | some d => ⟨BRANCH_0, some d⟩
            | none => request.log_sync_request
          else request.log_sync_request })

/-- The results a call of the trace records are results the collaborator gives: for a call
to a compile operation of the event, profile or logging manager there is a world in which
the manager, asked with the recorded argument, returns the recorded error and leaves the
recorded value in the slot. -/
def answered_by {σ : Type} (env : Collaborators σ) : Call → Prop
  | Call.kaa_event_compile_request id e out =>
    ∃ s, (env.kaa_event_compile_request s id).1 = e ∧
      (env.kaa_event_compile_request s id).2.1 = out
  | Call.kaa_profile_need_profile_resync e b =>
    ∃ s, (env.kaa_profile_need_profile_resync s).1 = e ∧
      (env.kaa_profile_need_profile_resync s).2.1 = b
  | Call.kaa_profile_compile_request e out =>
    ∃ s, (env.kaa_profile_compile_request s).1 = e ∧
      (env.kaa_profile_compile_request s).2.1 = out
  | Call.kaa_logging_compile_request e out =>
    ∃ s, (env.kaa_logging_compile_request s).1 = e ∧
      (env.kaa_logging_compile_request s).2.1 = out
  | _ => True

/-! ## Example collaborators -/

/-- Collaborators over a world that counts the calls made: the status store holds no digest,
the user manager produces nothing, the event manager produces content `7`, the profile
manager answers the resync check with `need` and the generation with `gen`, the logging
manager produces `log`, every handler succeeds, every allocation succeeds, and every buffer
deserializes to `response`. -/
def example_env (need : kaa_error_t × Bool) (gen : kaa_error_t × Option content_t)
    (log : Option content_t) (response : Option kaa_sync_response_t) : Collaborators Nat where
  APPLICATION_TOKEN := "token"
  kaa_status_get_endpoint_public_key_hash := fun s => (0, none, s + 1)
  kaa_status_get_profile_hash := fun s => (0, none, s + 1)
  kaa_status_save := fun s => (0, s + 1)
  kaa_user_compile_request := fun s _ => (0, none, s + 1)
  kaa_event_compile_request := fun s _ => (0, some 7, s + 1)
  kaa_profile_need_profile_resync := fun s => (need.1, need.2, s + 1)
  kaa_profile_compile_request := fun s => (gen.1, gen.2, s + 1)
  kaa_logging_compile_request := fun s => (0, log, s + 1)
  kaa_event_handle_sync := fun s _ _ _ => (0, s + 1)
  kaa_user_manager_handle_sync := fun s _ _ _ => (0, s + 1)
  kaa_profile_handle_sync := fun s _ => (0, s + 1)
  kaa_logging_handle_sync := fun s _ => (0, s + 1)
  get_size := fun _ => 64
  kaa_sync_response_deserialize := fun _ => response
  kaa_sync_request_create := fun s => (true, s)
  kaa_union_bytes_or_null_branch_0_create := fun s => (true, s)
  kaa_union_profile_sync_request_or_null_branch_0_create := fun s => (true, s)
  KAA_MALLOC := fun s => (true, s)

/-- The example collaborators with handlers and a status-persist operation that all fail:
the event, user, profile and logging handlers return `-7` and the status-persist operation
returns `-9`. -/
def failing_handlers_env (response : Option kaa_sync_response_t) : Collaborators Nat :=
  { example_env (0, false) (0, none) none response with
    kaa_event_handle_sync := fun s _ _ _ => (-7, s + 1)
    kaa_user_manager_handle_sync := fun s _ _ _ => (-7, s + 1)
    kaa_profile_handle_sync := fun s _ => (-7, s + 1)
    kaa_logging_handle_sync := fun s _ => (-7, s + 1)
    kaa_status_save := fun s => (-9, s + 1) }

/-- The example collaborators with a status store that answers the read of the endpoint key
hash with `key` and the read of the profile hash with `profile` (an error code and a digest
or none), and with an allocation of the profile-hash union that succeeds as `union_ok`
says. -/
def status_env (key profile : kaa_error_t × Option kaa_digest) (union_ok : Bool) :
    Collaborators Nat :=
  { example_env (0, false) (0, none) none none with
    kaa_status_get_endpoint_public_key_hash := fun s => (key.1, key.2, s + 1)
    kaa_status_get_profile_hash := fun s => (profile.1, profile.2, s + 1)
    kaa_union_bytes_or_null_branch_0_create := fun s => (union_ok, s) }

/-- An allocator that hands out the buffer `1` for every size. -/
def example_allocator : kaa_buffer_alloc_fn Nat := fun s _ => (some 1, s)

/-- An allocator that has no buffer to hand out. -/
def failing_allocator : kaa_buffer_alloc_fn Nat := fun s _ => (none, s)

/-- The example collaborators with user, event and logging managers whose compile operations
all fail with `-5` and produce nothing, while the profile manager answers the resync check
with `need` and the generation with `gen`. -/
def failing_compilers_env (need : kaa_error_t × Bool) (gen : kaa_error_t × Option content_t) :
    Collaborators Nat :=
  { example_env need gen none none with
    kaa_user_compile_request := fun s _ => (-5, none, s + 1)
    kaa_event_compile_request := fun s _ => (-5, none, s + 1)
    kaa_logging_compile_request := fun s => (-5, none, s + 1) }

/-! ## Lemmas on `last_result` -/

theorem last_result_eq_none {α : Type} (f : Call → Option α) (calls : List Call) :
    last_result f calls = none ↔ ∀ c ∈ calls, f c = none := by
  induction calls with
  | nil => simp [last_result]
  | cons c cs ih =>
    simp only [last_result, List.mem_cons, forall_eq_or_imp]
    cases h : last_result f cs with
    | none => simp [← ih, h]
    | some a => simp [← ih, h]

theorem last_result_mem {α : Type} (f : Call → Option α) (calls : List Call) (a : α)
    (h : last_result f calls = some a) : ∃ c ∈ calls, f c = some a := by
  induction calls with
  | nil => simp [last_result] at h
  | cons c cs ih =>
    simp only [last_result] at h
    cases h1 : last_result f cs with
    | none =>
      rw [h1] at h
      exact ⟨c, List.mem_cons_self _ _, h⟩
    | some b =>
      rw [h1] at h
      simp only [Option.some.injEq] at h
      subst h
      obtain ⟨d, hd, hfd⟩ := ih h1
      exact ⟨d, List.mem_cons_of_mem _ hd, hfd⟩

theorem last_result_append {α : Type} (f : Call → Option α) (pre calls : List Call)
    (h : ∀ c ∈ pre, f c = none) : last_result f (pre ++ calls) = last_result f calls := by
  induction pre with
  | nil => rfl
  | cons c cs ih =>
    have h1 : f c = none := h c (List.mem_cons_self _ _)
    have h2 := ih (fun d hd => h d (List.mem_cons_of_mem _ hd))
    show last_result f (c :: (cs ++ calls)) = last_result f calls
    rw [last_result, h2, h1]
    cases last_result f calls <;> rfl

/-! ## The loop of `kaa_compile_request` -/

theorem compile_services_uses_request_id {σ : Type} (env : Collaborators σ) (rid : Nat)
    (l : List kaa_service_t) (request : kaa_sync_request_t) (w : σ) :
    ∀ c ∈ (compile_services env rid l request w).calls, uses_request_id rid c := by
  induction l generalizing request w with
  | nil => simp [compile_services]
  | cons s rest ih =>
    cases s <;> simp only [compile_services] <;> (try split_ifs) <;>
      (try simp only [List.mem_cons, List.mem_singleton, List.not_mem_nil, or_false]) <;>
      intro c hc <;> (try rcases hc with rfl | hc) <;> (try rcases hc with rfl | hc) <;>
      first
        | exact ih _ _ c hc
        | simp [uses_request_id]

theorem compile_services_service_of {σ : Type} (env : Collaborators σ) (rid : Nat)
    (l : List kaa_service_t) (request : kaa_sync_request_t) (w : σ) :
    ∀ c ∈ (compile_services env rid l request w).calls, ∃ s ∈ l, service_of c = some s := by
  induction l generalizing request w with
  | nil => simp [compile_services]
  | cons s rest ih =>
    cases s <;> simp only [compile_services] <;> (try split_ifs) <;>
      (try simp only [List.mem_cons, List.mem_singleton, List.not_mem_nil, or_false]) <;>
      intro c hc <;> (try rcases hc with rfl | hc) <;> (try rcases hc with rfl | hc) <;>
      first
        | (obtain ⟨s, hs, hc⟩ := ih _ _ c hc; exact ⟨s, Or.inr hs, hc⟩)
        | simp [service_of]

theorem compile_services_visits {σ : Type} (env : Collaborators σ) (rid : Nat)
    (l : List kaa_service_t) (request : kaa_sync_request_t) (w : σ)
    (h : (compile_services env rid l request w).error = 0) :
    (KAA_SERVICE_EVENT ∈ l → ∃ e out, Call.kaa_event_compile_request rid e out ∈
      (compile_services env rid l request w).calls) ∧
    (KAA_SERVICE_PROFILE ∈ l → ∃ e b, Call.kaa_profile_need_profile_resync e b ∈
      (compile_services env rid l request w).calls) ∧
    (KAA_SERVICE_LOGGING ∈ l → ∃ e out, Call.kaa_logging_compile_request e out ∈
      (compile_services env rid l request w).calls) := by
  induction l generalizing request w with
  | nil => simp
  | cons s rest ih =>
    cases s <;> simp only [compile_services] at h ⊢ <;> (try split_ifs at h ⊢) <;>
      (try (exfalso; simp_all [KAA_ERR_NOMEM]; done)) <;>
      refine ⟨fun hm => ?_, fun hm => ?_, fun hm => ?_⟩ <;>
      simp only [List.mem_cons, reduceCtorEq, false_or] at hm <;>
      first
        | exact ⟨_, _, List.mem_cons_self _ _⟩
        | exact (ih _ _ h).1 hm
        | exact (ih _ _ h).2.1 hm
        | exact (ih _ _ h).2.2 hm
        | (obtain ⟨e, o, hh⟩ := (ih _ _ h).1 hm; exact ⟨e, o, List.mem_cons_of_mem _ hh⟩)
        | (obtain ⟨e, o, hh⟩ := (ih _ _ h).2.1 hm; exact ⟨e, o, List.mem_cons_of_mem _ hh⟩)
        | (obtain ⟨e, o, hh⟩ := (ih _ _ h).2.2 hm; exact ⟨e, o, List.mem_cons_of_mem _ hh⟩)
        | (obtain ⟨e, o, hh⟩ := (ih _ _ h).1 hm
           exact ⟨e, o, List.mem_cons_of_mem _ (List.mem_cons_of_mem _ hh)⟩)
        | (obtain ⟨e, o, hh⟩ := (ih _ _ h).2.2 hm
           exact ⟨e, o, List.mem_cons_of_mem _ (List.mem_cons_of_mem _ hh)⟩)

theorem last_result_cons_of_none {α : Type} (f : Call → Option α) (c : Call) (cs : List Call)
    (h : f c = none) : last_result f (c :: cs) = last_result f cs := by
  rw [last_result, h]
  cases last_result f cs <;> rfl

theorem compile_services_request_p {σ : Type} (env : Collaborators σ) (rid : Nat)
    (l : List kaa_service_t) (request : kaa_sync_request_t) (w : σ) :
    ((compile_services env rid l request w).error ≠ 0 →
      (compile_services env rid l request w).request_p = none) ∧
    ((compile_services env rid l request w).error = 0 →
      ∃ r, (compile_services env rid l request w).request_p = some r ∧
        (compile_services env rid l request w).result_size = env.get_size r) := by
  induction l generalizing request w with
  | nil => simp [compile_services, KAA_ERR_NONE]
  | cons s rest ih =>
    cases s <;> simp only [compile_services] <;> (try split_ifs) <;>
      first
        | exact ih _ _
        | simp_all [KAA_ERR_NOMEM]

theorem compile_services_frame {σ : Type} (env : Collaborators σ) (rid : Nat)
    (l : List kaa_service_t) (request : kaa_sync_request_t) (w : σ) (r : kaa_sync_request_t)
    (h : (compile_services env rid l request w).request_p = some r) :
    r.request_id = request.request_id ∧
    r.sync_request_meta_data = request.sync_request_meta_data ∧
    r.user_sync_request = request.user_sync_request ∧
    r.notification_sync_request = request.notification_sync_request ∧
    r.configuration_sync_request = request.configuration_sync_request ∧
    (KAA_SERVICE_EVENT ∉ l → r.event_sync_request = request.event_sync_request) ∧
    (KAA_SERVICE_PROFILE ∉ l → r.profile_sync_request = request.profile_sync_request) ∧
    (KAA_SERVICE_LOGGING ∉ l → r.log_sync_request = request.log_sync_request) := by
  induction l generalizing request w with
  | nil => simp_all [compile_services]
  | cons s rest ih =>
    cases s with
    | KAA_SERVICE_EVENT =>
      simp only [compile_services] at h
      have := ih _ _ h
      simp_all
    | KAA_SERVICE_PROFILE =>
      simp only [compile_services] at h
      split_ifs at h <;> have := ih _ _ h <;> simp_all
    | KAA_SERVICE_LOGGING =>
      simp only [compile_services] at h
      have := ih _ _ h
      rcases hlo : (env.kaa_logging_compile_request w).2.1 with _ | d <;>
        simp only [hlo] at this <;> simp_all
    | other t =>
      simp only [compile_services] at h
      have := ih _ _ h
      simp_all

theorem compile_services_logging {σ : Type} (env : Collaborators σ) (rid : Nat)
    (l : List kaa_service_t) (request : kaa_sync_request_t) (w : σ) (r : kaa_sync_request_t)
    (h : (compile_services env rid l request w).request_p = some r) :
    r.log_sync_request =
      match last_result logging_produced (compile_services env rid l request w).calls with
      | some d => ⟨BRANCH_0, some d⟩
      | none => request.log_sync_request := by
  induction l generalizing request w with
  | nil => simp_all [compile_services, last_result]
  | cons s rest ih =>
    cases s with
    | KAA_SERVICE_EVENT =>
      simp only [compile_services] at h ⊢
      have := ih _ _ h
      rw [last_result_cons_of_none _ _ _ rfl, this]
    | KAA_SERVICE_PROFILE =>
      simp only [compile_services] at h ⊢
      split_ifs at h ⊢
      · have := ih _ _ h
        rw [last_result_cons_of_none _ _ _ rfl, last_result_cons_of_none _ _ _ rfl, this]
      · have := ih _ _ h
        rw [last_result_cons_of_none _ _ _ rfl, this]
    | KAA_SERVICE_LOGGING =>
      simp only [compile_services] at h ⊢
      have := ih _ _ h
      rw [this, last_result]
      rcases hlo : (env.kaa_logging_compile_request w).2.1 with _ | d <;>
        cases last_result logging_produced _ <;> simp [logging_produced]
    | other t =>
      simp only [compile_services] at h ⊢
      exact ih _ _ h

theorem compile_services_generate_after_check {σ : Type} (env : Collaborators σ) (rid : Nat)
    (l : List kaa_service_t) (request : kaa_sync_request_t) (w : σ) (e : kaa_error_t)
    (out : Option content_t)
    (h : Call.kaa_profile_compile_request e out ∈ (compile_services env rid l request w).calls) :
    [Call.kaa_profile_need_profile_resync 0 true, Call.kaa_profile_compile_request e out] <:+:
      (compile_services env rid l request w).calls := by
  induction l generalizing request w with
  | nil => simp [compile_services] at h
  | cons s rest ih =>
    cases s with
    | KAA_SERVICE_EVENT =>
      simp only [compile_services, List.mem_cons, reduceCtorEq, false_or] at h ⊢
      exact (ih _ _ h).trans (List.infix_cons (List.infix_refl _))
    | KAA_SERVICE_PROFILE =>
      simp only [compile_services] at h ⊢
      split_ifs at h ⊢ with h1 h2 h3 h4 <;>
        simp only [List.mem_cons, List.mem_singleton, reduceCtorEq, false_or, List.not_mem_nil,
          Call.kaa_profile_compile_request.injEq, or_false] at h
      · obtain ⟨rfl, rfl⟩ := h
        simp only [ne_eq, not_not] at h1
        rw [h1, h2]
      · simp only [ne_eq, not_not] at h1
        rcases h with ⟨rfl, rfl⟩ | h
        · rw [h1, h2]
          exact ⟨[], _, rfl⟩
        · exact List.infix_cons (List.infix_cons (ih _ _ h))
      · exact (ih _ _ h).trans (List.infix_cons (List.infix_refl _))
    | KAA_SERVICE_LOGGING =>
      simp only [compile_services, List.mem_cons, reduceCtorEq, false_or] at h ⊢
      exact (ih _ _ h).trans (List.infix_cons (List.infix_refl _))
    | other t =>
      simp only [compile_services] at h ⊢
      exact ih _ _ h

theorem compile_services_failure {σ : Type} (env : Collaborators σ) (rid : Nat)
    (hunion : ∀ s, (env.kaa_union_profile_sync_request_or_null_branch_0_create s).1 = true)
    (l : List kaa_service_t) (request : kaa_sync_request_t) (w : σ)
    (h : (compile_services env rid l request w).error ≠ 0) :
    ∃ pre c, (compile_services env rid l request w).calls = pre ++ [c] ∧
      profile_failure c = some (compile_services env rid l request w).error := by
  induction l generalizing request w with
  | nil => simp [compile_services, KAA_ERR_NONE] at h
  | cons s rest ih =>
    cases s with
    | KAA_SERVICE_EVENT =>
      simp only [compile_services] at h ⊢
      obtain ⟨pre, c, h1, h2⟩ := ih _ _ h
      exact ⟨_ :: pre, c, by rw [h1]; rfl, h2⟩
    | KAA_SERVICE_PROFILE =>
      simp only [compile_services] at h ⊢
      split_ifs at h ⊢ with h1 h2 h3 h4
      · exact ⟨[], _, rfl, by simp [profile_failure, h1]⟩
      · exact ⟨[_], _, rfl, by simp [profile_failure, h4]⟩
      · obtain ⟨pre, c, h5, h6⟩ := ih _ _ h
        exact ⟨_ :: _ :: pre, c, by rw [h5]; rfl, h6⟩
      · exact absurd (hunion _) h3
      · obtain ⟨pre, c, h5, h6⟩ := ih _ _ h
        exact ⟨_ :: pre, c, by rw [h5]; rfl, h6⟩
    | KAA_SERVICE_LOGGING =>
      simp only [compile_services] at h ⊢
      obtain ⟨pre, c, h1, h2⟩ := ih _ _ h
      exact ⟨_ :: pre, c, by rw [h1]; rfl, h2⟩
    | other t =>
      simp only [compile_services] at h ⊢
      exact ih _ _ h

theorem compile_services_no_failure {σ : Type} (env : Collaborators σ) (rid : Nat)
    (l : List kaa_service_t) (request : kaa_sync_request_t) (w : σ)
    (h : (compile_services env rid l request w).error = 0) :
    ∀ c ∈ (compile_services env rid l request w).calls, profile_failure c = none := by
  induction l generalizing request w with
  | nil => simp [compile_services]
  | cons s rest ih =>
    cases s with
    | KAA_SERVICE_EVENT =>
      simp only [compile_services] at h ⊢
      intro c hc
      rcases List.mem_cons.1 hc with rfl | hc
      · rfl
      · exact ih _ _ h c hc
    | KAA_SERVICE_PROFILE =>
      simp only [compile_services] at h ⊢
      split_ifs at h ⊢ with h1 h2 h3 h4
      · exact absurd h h1
      · exact absurd h h4
      · simp only [ne_eq, not_not] at h1 h4
        intro c hc
        rcases List.mem_cons.1 hc with rfl | hc
        · simp [profile_failure, h1]
        · rcases List.mem_cons.1 hc with rfl | hc
          · simp [profile_failure, h4]
          · exact ih _ _ h c hc
      · exact absurd h (by simp [KAA_ERR_NOMEM])
      · simp only [ne_eq, not_not] at h1
        intro c hc
        rcases List.mem_cons.1 hc with rfl | hc
        · simp [profile_failure, h1]
        · exact ih _ _ h c hc
    | KAA_SERVICE_LOGGING =>
      simp only [compile_services] at h ⊢
      intro c hc
      rcases List.mem_cons.1 hc with rfl | hc
      · rfl
      · exact ih _ _ h c hc
    | other t =>
      simp only [compile_services] at h ⊢
      exact ih _ _ h

/-! ## `kaa_compile_request` -/

theorem create_sync_request_meta_data_calls {σ : Type} (env : Collaborators σ) (w : σ) :
    ∃ k p kh ph, (create_sync_request_meta_data env w).2.2 =
      [Call.kaa_status_get_endpoint_public_key_hash k kh,
       Call.kaa_status_get_profile_hash p ph] := by
  unfold create_sync_request_meta_data
  simp only
  split
  · split <;> exact ⟨_, _, _, _, rfl⟩
  · exact ⟨_, _, _, _, rfl⟩

theorem kaa_compile_request_not_created {σ : Type} (env : Collaborators σ)
    (self : kaa_platform_protocol_t) (services : List kaa_service_t) (w : σ)
    (h : (env.kaa_sync_request_create w).1 = false) :
    (kaa_compile_request env self services w).error = KAA_ERR_NOMEM ∧
    (kaa_compile_request env self services w).request_p = none ∧
    (kaa_compile_request env self services w).calls = [] := by
  simp [kaa_compile_request, h]

theorem kaa_compile_request_created {σ : Type} (env : Collaborators σ)
    (self : kaa_platform_protocol_t) (services : List kaa_service_t) (w : σ)
    (h : (env.kaa_sync_request_create w).1 = true) :
    ∃ k p kh ph m e out w0,
      (kaa_compile_request env self services w).error =
        (compile_services env self.request_id services.reverse
          ⟨⟨BRANCH_0, some self.request_id⟩, ⟨BRANCH_0, some m⟩, ⟨BRANCH_0, out⟩, branch_1_create,
            branch_1_create, branch_1_create, branch_1_create, branch_1_create⟩ w0).error ∧
      (kaa_compile_request env self services w).request_p =
        (compile_services env self.request_id services.reverse
          ⟨⟨BRANCH_0, some self.request_id⟩, ⟨BRANCH_0, some m⟩, ⟨BRANCH_0, out⟩, branch_1_create,
            branch_1_create, branch_1_create, branch_1_create, branch_1_create⟩ w0).request_p ∧
      (kaa_compile_request env self services w).calls =
        [Call.kaa_status_get_endpoint_public_key_hash k kh,
         Call.kaa_status_get_profile_hash p ph,
         Call.kaa_user_compile_request self.request_id e out] ++
        (compile_services env self.request_id services.reverse
          ⟨⟨BRANCH_0, some self.request_id⟩, ⟨BRANCH_0, some m⟩, ⟨BRANCH_0, out⟩, branch_1_create,
            branch_1_create, branch_1_create, branch_1_create, branch_1_create⟩ w0).calls := by
  obtain ⟨k, p, kh, ph, hm⟩ := create_sync_request_meta_data_calls env (env.kaa_sync_request_create w).2
  refine ⟨k, p, kh, ph, (create_sync_request_meta_data env (env.kaa_sync_request_create w).2).1,
    (env.kaa_user_compile_request
      (create_sync_request_meta_data env (env.kaa_sync_request_create w).2).2.1
      self.request_id).1,
    (env.kaa_user_compile_request
      (create_sync_request_meta_data env (env.kaa_sync_request_create w).2).2.1
      self.request_id).2.1,
    (env.kaa_user_compile_request
      (create_sync_request_meta_data env (env.kaa_sync_request_create w).2).2.1
      self.request_id).2.2, ?_, ?_, ?_⟩
  · simp only [kaa_compile_request, h, if_true]
  · simp only [kaa_compile_request, h, if_true]
  · simp only [kaa_compile_request, h, if_true, hm]
    rfl

theorem kaa_compile_request_ok_created {σ : Type} (env : Collaborators σ)
    (self : kaa_platform_protocol_t) (services : List kaa_service_t) (w : σ)
    (h : (kaa_compile_request env self services w).error = KAA_ERR_NONE) :
    (env.kaa_sync_request_create w).1 = true := by
  by_contra hc
  simp only [Bool.not_eq_true] at hc
  rw [(kaa_compile_request_not_created env self services w hc).1] at h
  simp [KAA_ERR_NOMEM, KAA_ERR_NONE] at h

theorem kaa_compile_request_some_created {σ : Type} (env : Collaborators σ)
    (self : kaa_platform_protocol_t) (services : List kaa_service_t) (w : σ)
    (request : kaa_sync_request_t)
    (h : (kaa_compile_request env self services w).request_p = some request) :
    (env.kaa_sync_request_create w).1 = true := by
  by_contra hc
  simp only [Bool.not_eq_true] at hc
  rw [(kaa_compile_request_not_created env self services w hc).2.1] at h
  simp at h

theorem service_of_some_kind (c : Call) (s : kaa_service_t) (h : service_of c = some s) :
    is_user_compile c = false ∧ is_output_call c = false := by
  cases c <;> simp_all [service_of, is_user_compile, is_output_call]

/-! ## The claims on the request compiler -/

/-- C2: a successful `kaa_compile_request` yields an envelope in which the event, profile and
logging sections are Absent (null branch, no data) whenever their tag does not occur in the
feature list, and in which the notification and configuration sections are Absent for every
feature list. -/
theorem unrequested_sections_absent {σ : Type} (env : Collaborators σ)
    (self : kaa_platform_protocol_t) (services : List kaa_service_t) (w : σ)
    (h : (kaa_compile_request env self services w).error = KAA_ERR_NONE) :
    ∃ request, (kaa_compile_request env self services w).request_p = some request ∧
      (KAA_SERVICE_EVENT ∉ services → request.event_sync_request = ⟨BRANCH_1, none⟩) ∧
      (KAA_SERVICE_PROFILE ∉ services → request.profile_sync_request = ⟨BRANCH_1, none⟩) ∧
      (KAA_SERVICE_LOGGING ∉ services → request.log_sync_request = ⟨BRANCH_1, none⟩) ∧
      request.notification_sync_request = ⟨BRANCH_1, none⟩ ∧
      request.configuration_sync_request = ⟨BRANCH_1, none⟩ := by
  obtain ⟨k, p, kh, ph, m, e, out, w0, herr, hreq, -⟩ :=
    kaa_compile_request_created env self services w
      (kaa_compile_request_ok_created env self services w h)
  rw [herr] at h
  obtain ⟨request, hr, -⟩ := (compile_services_request_p env _ _ _ _).2 h
  have hf := compile_services_frame env _ _ _ _ request hr
  refine ⟨request, by rw [hreq, hr], ?_, ?_, ?_, hf.2.2.2.1, hf.2.2.2.2.1⟩
  · intro hn
    exact hf.2.2.2.2.2.1 (by simpa using hn)
  · intro hn
    exact hf.2.2.2.2.2.2.1 (by simpa using hn)
  · intro hn
    exact hf.2.2.2.2.2.2.2 (by simpa using hn)

/-- The statement of C2 at the feature list `{event}` with the example collaborators. -/
theorem unrequested_sections_absent_witness :
    (kaa_compile_request (example_env (0, false) (0, none) none none) ⟨1⟩
      [KAA_SERVICE_EVENT] 0).error = KAA_ERR_NONE ∧
    ∃ request, (kaa_compile_request (example_env (0, false) (0, none) none none) ⟨1⟩
        [KAA_SERVICE_EVENT] 0).request_p = some request ∧
      (KAA_SERVICE_EVENT ∉ [KAA_SERVICE_EVENT] → request.event_sync_request = ⟨BRANCH_1, none⟩) ∧
      (KAA_SERVICE_PROFILE ∉ [KAA_SERVICE_EVENT] →
        request.profile_sync_request = ⟨BRANCH_1, none⟩) ∧
      (KAA_SERVICE_LOGGING ∉ [KAA_SERVICE_EVENT] → request.log_sync_request = ⟨BRANCH_1, none⟩) ∧
      request.notification_sync_request = ⟨BRANCH_1, none⟩ ∧
      request.configuration_sync_request = ⟨BRANCH_1, none⟩ :=
  ⟨by decide, unrequested_sections_absent _ _ _ _ (by decide)⟩

theorem kaa_compile_request_last_result {σ : Type} {α : Type} (env : Collaborators σ)
    (self : kaa_platform_protocol_t) (services : List kaa_service_t) (w : σ)
    (f : Call → Option α) (k p e : kaa_error_t) (kh ph : Option kaa_digest)
    (out : Option content_t) (loop : List Call)
    (hf : ∀ c, service_of c = none → f c = none)
    (hcalls : (kaa_compile_request env self services w).calls =
      [Call.kaa_status_get_endpoint_public_key_hash k kh,
       Call.kaa_status_get_profile_hash p ph,
       Call.kaa_user_compile_request self.request_id e out] ++ loop) :
    last_result f (kaa_compile_request env self services w).calls = last_result f loop := by
  rw [hcalls]
  apply last_result_append
  intro c hc
  apply hf
  simp only [List.mem_cons, List.mem_singleton, List.not_mem_nil, or_false] at hc
  rcases hc with rfl | rfl | rfl <;> rfl

theorem kaa_compile_request_mem {σ : Type} (env : Collaborators σ)
    (self : kaa_platform_protocol_t) (services : List kaa_service_t) (w : σ)
    (k p e : kaa_error_t) (kh ph : Option kaa_digest)
    (out : Option content_t) (loop : List Call) (c : Call) (s : kaa_service_t)
    (hs : service_of c = some s)
    (hcalls : (kaa_compile_request env self services w).calls =
      [Call.kaa_status_get_endpoint_public_key_hash k kh,
       Call.kaa_status_get_profile_hash p ph,
       Call.kaa_user_compile_request self.request_id e out] ++ loop) :
    c ∈ (kaa_compile_request env self services w).calls ↔ c ∈ loop := by
  rw [hcalls]
  simp only [List.mem_append, List.mem_cons, List.mem_singleton, List.not_mem_nil, or_false]
  constructor
  · rintro ((rfl | rfl | rfl) | h)
    · simp [service_of] at hs
    · simp [service_of] at hs
    · simp [service_of] at hs
    · exact h
  · exact Or.inr

theorem logging_produced_of_none (c : Call) (h : service_of c = none) :
    logging_produced c = none := by
  cases c <;> simp_all [service_of, logging_produced]

theorem logging_produced_some (c : Call) (d : content_t) (h : logging_produced c = some d) :
    ∃ e, c = Call.kaa_logging_compile_request e (some d) := by
  cases c <;> simp_all [logging_produced]

theorem compile_services_answered {σ : Type} (env : Collaborators σ) (rid : Nat)
    (l : List kaa_service_t) (request : kaa_sync_request_t) (w : σ) :
    ∀ c ∈ (compile_services env rid l request w).calls, answered_by env c := by
  induction l generalizing request w with
  | nil => simp [compile_services]
  | cons s rest ih =>
    cases s <;> simp only [compile_services] <;> (try split_ifs) <;>
      (try simp only [List.mem_cons, List.mem_singleton, List.not_mem_nil, or_false]) <;>
      intro c hc <;> (try rcases hc with rfl | hc) <;> (try rcases hc with rfl | hc) <;>
      first
        | exact ih _ _ c hc
        | exact ⟨_, rfl, rfl⟩

theorem compile_services_checks {σ : Type} (env : Collaborators σ) (rid : Nat)
    (l : List kaa_service_t) (request : kaa_sync_request_t) (w : σ)
    (h : KAA_SERVICE_PROFILE ∈ l) :
    ∃ e b, Call.kaa_profile_need_profile_resync e b ∈
      (compile_services env rid l request w).calls := by
  induction l generalizing request w with
  | nil => simp at h
  | cons s rest ih =>
    cases s with
    | KAA_SERVICE_EVENT =>
      simp only [List.mem_cons, reduceCtorEq, false_or] at h
      obtain ⟨e, b, hm⟩ := ih _ _ h
      exact ⟨e, b, List.mem_cons_of_mem _ hm⟩
    | KAA_SERVICE_PROFILE =>
      simp only [compile_services]
      split_ifs <;> exact ⟨_, _, List.mem_cons_self _ _⟩
    | KAA_SERVICE_LOGGING =>
      simp only [List.mem_cons, reduceCtorEq, false_or] at h
      obtain ⟨e, b, hm⟩ := ih _ _ h
      exact ⟨e, b, List.mem_cons_of_mem _ hm⟩
    | other t =>
      simp only [List.mem_cons, reduceCtorEq, false_or] at h
      exact ih _ _ h

theorem compile_services_needed_then_generate {σ : Type} (env : Collaborators σ) (rid : Nat)
    (hunion : ∀ s, (env.kaa_union_profile_sync_request_or_null_branch_0_create s).1 = true)
    (l : List kaa_service_t) (request : kaa_sync_request_t) (w : σ)
    (h : Call.kaa_profile_need_profile_resync 0 true ∈
      (compile_services env rid l request w).calls) :
    ∃ e out, Call.kaa_profile_compile_request e out ∈
      (compile_services env rid l request w).calls := by
  induction l generalizing request w with
  | nil => simp [compile_services] at h
  | cons s rest ih =>
    cases s with
    | KAA_SERVICE_EVENT =>
      simp only [compile_services, List.mem_cons, reduceCtorEq, false_or] at h ⊢
      exact ih _ _ h
    | KAA_SERVICE_PROFILE =>
      simp only [compile_services] at h ⊢
      split_ifs at h ⊢ with h1 h2 h3 h4
      · simp only [List.mem_singleton, Call.kaa_profile_need_profile_resync.injEq] at h
        exact absurd h.1.symm h1
      · exact ⟨_, _, List.mem_cons_of_mem _ (List.mem_cons_self _ _)⟩
      · exact ⟨_, _, List.mem_cons_of_mem _ (List.mem_cons_self _ _)⟩
      · exact absurd (hunion _) h3
      · simp only [List.mem_cons, Call.kaa_profile_need_profile_resync.injEq] at h
        rcases h with ⟨-, h⟩ | h
        · exact absurd h.symm h2
        · obtain ⟨e, o, ho⟩ := ih _ _ h
          exact ⟨e, o, List.mem_cons_of_mem _ ho⟩
    | KAA_SERVICE_LOGGING =>
      simp only [compile_services, List.mem_cons, reduceCtorEq, false_or] at h ⊢
      exact ih _ _ h
    | other t =>
      simp only [compile_services] at h ⊢
      exact ih _ _ h

theorem kaa_compile_request_answered {σ : Type} (env : Collaborators σ)
    (self : kaa_platform_protocol_t) (services : List kaa_service_t) (w : σ) :
    (∀ e b, Call.kaa_profile_need_profile_resync e b ∈
        (kaa_compile_request env self services w).calls →
      ∃ s, (env.kaa_profile_need_profile_resync s).1 = e ∧
        (env.kaa_profile_need_profile_resync s).2.1 = b) ∧
    (∀ e out, Call.kaa_profile_compile_request e out ∈
        (kaa_compile_request env self services w).calls →
      ∃ s, (env.kaa_profile_compile_request s).1 = e ∧
        (env.kaa_profile_compile_request s).2.1 = out) ∧
    (∀ e out, Call.kaa_logging_compile_request e out ∈
        (kaa_compile_request env self services w).calls →
      ∃ s, (env.kaa_logging_compile_request s).1 = e ∧
        (env.kaa_logging_compile_request s).2.1 = out) := by
  cases hc : (env.kaa_sync_request_create w).1 with
  | false =>
    rw [(kaa_compile_request_not_created env self services w hc).2.2]
    simp
  | true =>
    obtain ⟨k, p, kh, ph, m, e, out, w0, -, -, hcalls⟩ :=
      kaa_compile_request_created env self services w hc
    refine ⟨fun e1 b h => ?_, fun e1 o h => ?_, fun e1 o h => ?_⟩
    · exact compile_services_answered env _ _ _ _ _
        ((kaa_compile_request_mem env self services w k p e kh ph out _
          (Call.kaa_profile_need_profile_resync e1 b) _ rfl hcalls).1 h)
    · exact compile_services_answered env _ _ _ _ _
        ((kaa_compile_request_mem env self services w k p e kh ph out _
          (Call.kaa_profile_compile_request e1 o) _ rfl hcalls).1 h)
    · exact compile_services_answered env _ _ _ _ _
        ((kaa_compile_request_mem env self services w k p e kh ph out _
          (Call.kaa_logging_compile_request e1 o) _ rfl hcalls).1 h)

theorem kaa_compile_request_profile_calls {σ : Type} (env : Collaborators σ)
    (self : kaa_platform_protocol_t) (services : List kaa_service_t) (w : σ)
    (hcreate : ∀ s, (env.kaa_sync_request_create s).1 = true)
    (hunion : ∀ s, (env.kaa_union_profile_sync_request_or_null_branch_0_create s).1 = true) :
    (KAA_SERVICE_PROFILE ∈ services → ∃ e b, Call.kaa_profile_need_profile_resync e b ∈
      (kaa_compile_request env self services w).calls) ∧
    (∀ e b, Call.kaa_profile_need_profile_resync e b ∈
        (kaa_compile_request env self services w).calls → KAA_SERVICE_PROFILE ∈ services) ∧
    (Call.kaa_profile_need_profile_resync 0 true ∈
        (kaa_compile_request env self services w).calls →
      ∃ e out, Call.kaa_profile_compile_request e out ∈
        (kaa_compile_request env self services w).calls) := by
  obtain ⟨k, p, kh, ph, m, e, out, w0, -, -, hcalls⟩ :=
    kaa_compile_request_created env self services w (hcreate w)
  refine ⟨fun hmem => ?_, fun e1 b hm => ?_, fun hm => ?_⟩
  · obtain ⟨e1, b, h1⟩ := compile_services_checks env self.request_id services.reverse
      ⟨⟨BRANCH_0, some self.request_id⟩, ⟨BRANCH_0, some m⟩, ⟨BRANCH_0, out⟩, branch_1_create,
        branch_1_create, branch_1_create, branch_1_create, branch_1_create⟩ w0
      (List.mem_reverse.2 hmem)
    exact ⟨e1, b, (kaa_compile_request_mem env self services w k p e kh ph out _
      (Call.kaa_profile_need_profile_resync e1 b) _ rfl hcalls).2 h1⟩
  · have hm1 := (kaa_compile_request_mem env self services w k p e kh ph out _
      (Call.kaa_profile_need_profile_resync e1 b) _ rfl hcalls).1 hm
    obtain ⟨s, hs, hsc⟩ := compile_services_service_of env _ _ _ _ _ hm1
    simp only [service_of, Option.some.injEq] at hsc
    subst hsc
    exact List.mem_reverse.1 hs
  · have hm1 := (kaa_compile_request_mem env self services w k p e kh ph out _
      (Call.kaa_profile_need_profile_resync 0 true) _ rfl hcalls).1 hm
    obtain ⟨e1, o1, h1⟩ := compile_services_needed_then_generate env _ hunion _ _ _ hm1
    exact ⟨e1, o1, (kaa_compile_request_mem env self services w k p e kh ph out _
      (Call.kaa_profile_compile_request e1 o1) _ rfl hcalls).2 h1⟩

/-- The logging section after a successful `kaa_compile_request`, read off the trace: it is
Present (branch 0) if and only if `logging` is in the feature list and a recorded call of the
logging manager produced content, and it holds what the last recorded call produced. -/
theorem logging_section_of_trace {σ : Type} (env : Collaborators σ)
    (self : kaa_platform_protocol_t) (services : List kaa_service_t) (w : σ)
    (h : (kaa_compile_request env self services w).error = KAA_ERR_NONE) :
    ∃ request, (kaa_compile_request env self services w).request_p = some request ∧
      (request.log_sync_request.type = BRANCH_0 ↔
        KAA_SERVICE_LOGGING ∈ services ∧ ∃ e d, Call.kaa_logging_compile_request e (some d) ∈
          (kaa_compile_request env self services w).calls) ∧
      request.log_sync_request =
        (match last_result logging_produced (kaa_compile_request env self services w).calls with
         | some d => ⟨BRANCH_0, some d⟩
         | none => ⟨BRANCH_1, none⟩) := by
  obtain ⟨k, p, kh, ph, m, e, out, w0, herr, hreq, hcalls⟩ :=
    kaa_compile_request_created env self services w
      (kaa_compile_request_ok_created env self services w h)
  rw [herr] at h
  obtain ⟨request, hr, -⟩ := (compile_services_request_p env _ _ _ _).2 h
  have hl := compile_services_logging env _ _ _ _ request hr
  have hlast := kaa_compile_request_last_result env self services w logging_produced k p e kh ph
    out _ logging_produced_of_none hcalls
  refine ⟨request, by rw [hreq, hr], ?_, ?_⟩
  · constructor
    · intro ht
      cases hlr : last_result logging_produced (compile_services env self.request_id
          services.reverse ⟨⟨BRANCH_0, some self.request_id⟩, ⟨BRANCH_0, some m⟩, ⟨BRANCH_0, out⟩,
            branch_1_create, branch_1_create, branch_1_create, branch_1_create,
            branch_1_create⟩ w0).calls with
      | none =>
        rw [hlr] at hl
        rw [hl] at ht
        simp [branch_1_create, BRANCH_0, BRANCH_1] at ht
      | some d =>
        obtain ⟨c, hc, hd⟩ := last_result_mem _ _ _ hlr
        obtain ⟨s, hs, hsc⟩ := compile_services_service_of env _ _ _ _ c hc
        obtain ⟨e1, rfl⟩ := logging_produced_some c d hd
        simp only [service_of, Option.some.injEq] at hsc
        subst hsc
        refine ⟨by simpa using hs, e1, d, ?_⟩
        exact (kaa_compile_request_mem env self services w k p e kh ph out _
          (Call.kaa_logging_compile_request e1 (some d)) _ rfl hcalls).2 hc
    · rintro ⟨-, e1, d, hmem⟩
      have hmem1 := (kaa_compile_request_mem env self services w k p e kh ph out _
        (Call.kaa_logging_compile_request e1 (some d)) _ rfl hcalls).1 hmem
      cases hlr : last_result logging_produced (compile_services env self.request_id
          services.reverse ⟨⟨BRANCH_0, some self.request_id⟩, ⟨BRANCH_0, some m⟩, ⟨BRANCH_0, out⟩,
            branch_1_create, branch_1_create, branch_1_create, branch_1_create,
            branch_1_create⟩ w0).calls with
      | none =>
        have := (last_result_eq_none _ _).1 hlr _ hmem1
        simp [logging_produced] at this
      | some d1 =>
        rw [hlr] at hl
        rw [hl]
  · rw [hlast, hl]
    rfl

/-- C5: after a successful `kaa_compile_request`, the logging manager's compile operation has
been called if `logging` is in the feature list and only then, and what the trace records
of a call is what the manager returned. The logging section is Present (branch 0) if and only
if `logging` is in the feature list and a call of the logging manager produced content (a
non-null request); it then carries exactly the content last produced, and otherwise it is
Absent (null branch, no data), never Present without content. In particular, with `logging`
in the list and a manager that always produces the content `d` the section is Present(`d`),
and with `logging` not in the list or a manager that always produces nothing it is
Absent. -/
theorem logging_section_iff_content {σ : Type} (env : Collaborators σ)
    (self : kaa_platform_protocol_t) (services : List kaa_service_t) (w : σ)
    (h : (kaa_compile_request env self services w).error = KAA_ERR_NONE) :
    ∃ request, (kaa_compile_request env self services w).request_p = some request ∧
      (KAA_SERVICE_LOGGING ∈ services → ∃ e out, Call.kaa_logging_compile_request e out ∈
        (kaa_compile_request env self services w).calls) ∧
      (∀ e out, Call.kaa_logging_compile_request e out ∈
          (kaa_compile_request env self services w).calls →
        KAA_SERVICE_LOGGING ∈ services ∧
        ∃ s, (env.kaa_logging_compile_request s).1 = e ∧
          (env.kaa_logging_compile_request s).2.1 = out) ∧
      (request.log_sync_request.type = BRANCH_0 ↔
        KAA_SERVICE_LOGGING ∈ services ∧ ∃ e d, Call.kaa_logging_compile_request e (some d) ∈
          (kaa_compile_request env self services w).calls) ∧
      request.log_sync_request =
        (match last_result logging_produced (kaa_compile_request env self services w).calls with
         | some d => ⟨BRANCH_0, some d⟩
         | none => ⟨BRANCH_1, none⟩) ∧
      (KAA_SERVICE_LOGGING ∈ services → ∀ d : content_t,
        (∀ s, (env.kaa_logging_compile_request s).2.1 = some d) →
        request.log_sync_request = ⟨BRANCH_0, some d⟩) ∧
      ((KAA_SERVICE_LOGGING ∉ services ∨ ∀ s, (env.kaa_logging_compile_request s).2.1 = none) →
        request.log_sync_request = ⟨BRANCH_1, none⟩) := by
  obtain ⟨request, hr, hiff, hlast⟩ := logging_section_of_trace env self services w h
  obtain ⟨k, p, kh, ph, m, e, out, w0, herr, hreq, hcalls⟩ :=
    kaa_compile_request_created env self services w
      (kaa_compile_request_ok_created env self services w h)
  have hans := (kaa_compile_request_answered env self services w).2.2
  have hasked : KAA_SERVICE_LOGGING ∈ services → ∃ e out, Call.kaa_logging_compile_request e out ∈
      (kaa_compile_request env self services w).calls := by
    intro hmem
    rw [herr] at h
    obtain ⟨e1, o1, hm⟩ := (compile_services_visits env _ _ _ _ h).2.2 (List.mem_reverse.2 hmem)
    exact ⟨e1, o1, (kaa_compile_request_mem env self services w k p e kh ph out _
      (Call.kaa_logging_compile_request e1 o1) _ rfl hcalls).2 hm⟩
  have honly : ∀ e1 o1, Call.kaa_logging_compile_request e1 o1 ∈
      (kaa_compile_request env self services w).calls → KAA_SERVICE_LOGGING ∈ services := by
    intro e1 o1 hm
    have hm1 := (kaa_compile_request_mem env self services w k p e kh ph out _
      (Call.kaa_logging_compile_request e1 o1) _ rfl hcalls).1 hm
    obtain ⟨s, hs, hsc⟩ := compile_services_service_of env _ _ _ _ _ hm1
    simp only [service_of, Option.some.injEq] at hsc
    subst hsc
    exact List.mem_reverse.1 hs
  refine ⟨request, hr, hasked, fun e1 o1 hm => ⟨honly e1 o1 hm, hans e1 o1 hm⟩, hiff, hlast,
    ?_, ?_⟩
  · intro hmem d hd
    obtain ⟨e1, o1, hm⟩ := hasked hmem
    obtain ⟨s, -, hs⟩ := hans e1 o1 hm
    rw [hd s] at hs
    subst hs
    cases hlr : last_result logging_produced (kaa_compile_request env self services w).calls with
    | none =>
      have := (last_result_eq_none _ _).1 hlr _ hm
      simp [logging_produced] at this
    | some d1 =>
      obtain ⟨c, hc, hcd⟩ := last_result_mem _ _ _ hlr
      obtain ⟨e2, rfl⟩ := logging_produced_some c d1 hcd
      obtain ⟨s2, -, hs2⟩ := hans e2 (some d1) hc
      rw [hd s2] at hs2
      simp only [Option.some.injEq] at hs2
      subst hs2
      rw [hlast, hlr]
  · intro hcase
    have hnone : last_result logging_produced (kaa_compile_request env self services w).calls =
        none := by
      rw [last_result_eq_none]
      intro c hc
      cases hlp : logging_produced c with
      | none => rfl
      | some d1 =>
        obtain ⟨e2, rfl⟩ := logging_produced_some c d1 hlp
        rcases hcase with hn | hn
        · exact absurd (honly e2 (some d1) hc) hn
        · obtain ⟨s2, -, hs2⟩ := hans e2 (some d1) hc
          rw [hn s2] at hs2
          simp at hs2
    rw [hlast, hnone]

/-- The statement of C5 at the feature list (event, logging) with a logging manager that
produces the content `4`: the section is Present(4); with one that produces nothing it is
Absent. -/
theorem logging_section_iff_content_witness :
    (kaa_compile_request (example_env (0, false) (0, none) (some 4) none) ⟨1⟩
      [KAA_SERVICE_EVENT, KAA_SERVICE_LOGGING] 0).error = KAA_ERR_NONE ∧
    (kaa_compile_request (example_env (0, false) (0, none) (some 4) none) ⟨1⟩
      [KAA_SERVICE_EVENT, KAA_SERVICE_LOGGING] 0).request_p.map
        (fun r => r.log_sync_request) = some ⟨BRANCH_0, some 4⟩ ∧
    (kaa_compile_request (example_env (0, false) (0, none) (some 4) none) ⟨1⟩
      [KAA_SERVICE_EVENT, KAA_SERVICE_LOGGING] 0).calls.filter
        (fun c => (service_of c == some KAA_SERVICE_LOGGING)) =
      [Call.kaa_logging_compile_request 0 (some 4)] ∧
    (kaa_compile_request (example_env (0, false) (0, none) none none) ⟨1⟩
      [KAA_SERVICE_EVENT, KAA_SERVICE_LOGGING] 0).request_p.map
        (fun r => r.log_sync_request) = some ⟨BRANCH_1, none⟩ ∧
    ∃ request, (kaa_compile_request (example_env (0, false) (0, none) (some 4) none) ⟨1⟩
        [KAA_SERVICE_EVENT, KAA_SERVICE_LOGGING] 0).request_p = some request ∧
      request.log_sync_request = ⟨BRANCH_0, some 4⟩ := by
  obtain ⟨request, h1, -, -, -, -, h6, -⟩ :=
    logging_section_iff_content (example_env (0, false) (0, none) (some 4) none) ⟨1⟩
      [KAA_SERVICE_EVENT, KAA_SERVICE_LOGGING] 0 (by decide)
  exact ⟨by decide, by decide, by decide, by decide, request, h1,
    h6 (by decide) 4 (fun _ => rfl)⟩

theorem kaa_compile_request_no_output {σ : Type} (env : Collaborators σ)
    (self : kaa_platform_protocol_t) (services : List kaa_service_t) (w : σ) :
    ∀ call ∈ (kaa_compile_request env self services w).calls, is_output_call call = false := by
  intro call hcall
  cases hc : (env.kaa_sync_request_create w).1 with
  | false =>
    rw [(kaa_compile_request_not_created env self services w hc).2.2] at hcall
    simp at hcall
  | true =>
    obtain ⟨k, p, kh, ph, m, e, out, w0, -, -, hcalls⟩ :=
      kaa_compile_request_created env self services w hc
    rw [hcalls] at hcall
    simp only [List.mem_append, List.mem_cons, List.mem_singleton, List.not_mem_nil,
      or_false] at hcall
    rcases hcall with (rfl | rfl | rfl) | hcall
    · rfl
    · rfl
    · rfl
    · obtain ⟨s, -, hs⟩ := compile_services_service_of env _ _ _ _ call hcall
      exact (service_of_some_kind call s hs).2

theorem kaa_compile_request_generate_after_check {σ : Type} (env : Collaborators σ)
    (self : kaa_platform_protocol_t) (services : List kaa_service_t) (w : σ)
    (e : kaa_error_t) (out : Option content_t)
    (h : Call.kaa_profile_compile_request e out ∈ (kaa_compile_request env self services w).calls) :
    [Call.kaa_profile_need_profile_resync 0 true, Call.kaa_profile_compile_request e out] <:+:
      (kaa_compile_request env self services w).calls := by
  cases hc : (env.kaa_sync_request_create w).1 with
  | false =>
    rw [(kaa_compile_request_not_created env self services w hc).2.2] at h
    simp at h
  | true =>
    obtain ⟨k, p, kh, ph, m, e1, out1, w0, -, -, hcalls⟩ :=
      kaa_compile_request_created env self services w hc
    have h1 := (kaa_compile_request_mem env self services w k p e1 kh ph out1 _
      (Call.kaa_profile_compile_request e out) _ rfl hcalls).1 h
    rw [hcalls]
    exact (compile_services_generate_after_check env _ _ _ _ e out h1).trans
      (List.suffix_append _ _).isInfix

theorem profile_failure_service (c : Call) (e : kaa_error_t) (h : profile_failure c = some e) :
    service_of c = some KAA_SERVICE_PROFILE ∧ e ≠ 0 := by
  cases c <;> simp_all [profile_failure, service_of] <;> (obtain ⟨h1, h2⟩ := h; subst h2; exact h1)

theorem profile_failure_call (c : Call) (e : kaa_error_t) (h : profile_failure c = some e) :
    (∃ b, c = Call.kaa_profile_need_profile_resync e b) ∨
    (∃ out, c = Call.kaa_profile_compile_request e out) := by
  cases c with
  | kaa_profile_need_profile_resync e1 b =>
    simp only [profile_failure] at h
    split_ifs at h
    cases h
    exact Or.inl ⟨b, rfl⟩
  | kaa_profile_compile_request e1 out =>
    simp only [profile_failure] at h
    split_ifs at h
    cases h
    exact Or.inr ⟨out, rfl⟩
  | _ => simp [profile_failure] at h

/-- The failure of `kaa_compile_request`, read off the trace, with the allocations of the
request and of the profile union succeeding: the compile fails if and only if `profile` is in
the feature list and a recorded call to the profile manager returned an error; the failing
call is then the last one recorded and its error is the value returned; the client sync
returns that error without a call to the buffer allocator or to the serializer. -/
theorem compile_failure_of_trace {σ : Type} (env : Collaborators σ)
    (services : List kaa_service_t) (w : σ)
    (hcreate : ∀ s, (env.kaa_sync_request_create s).1 = true)
    (hunion : ∀ s, (env.kaa_union_profile_sync_request_or_null_branch_0_create s).1 = true) :
    (∀ self : kaa_platform_protocol_t,
      ((kaa_compile_request env self services w).error ≠ KAA_ERR_NONE ↔
        KAA_SERVICE_PROFILE ∈ services ∧
        ∃ call ∈ (kaa_compile_request env self services w).calls, profile_failure call ≠ none) ∧
      ((kaa_compile_request env self services w).error ≠ KAA_ERR_NONE →
        (∃ pre call, (kaa_compile_request env self services w).calls = pre ++ [call] ∧
          profile_failure call = some (kaa_compile_request env self services w).error) ∧
        (kaa_compile_request env self services w).request_p = none) ∧
      (∀ e out, Call.kaa_profile_compile_request e out ∈
          (kaa_compile_request env self services w).calls →
        [Call.kaa_profile_need_profile_resync 0 true, Call.kaa_profile_compile_request e out] <:+:
          (kaa_compile_request env self services w).calls)) ∧
    (∀ (self : kaa_platform_protocol_t) (allocator : kaa_buffer_alloc_fn σ), services ≠ [] →
      (kaa_compile_request env ⟨(self.request_id + 1) % 2 ^ 32⟩ services w).error ≠ KAA_ERR_NONE →
      (kaa_platform_protocol_serialize_client_sync env (some self) (some services)
        (some allocator) w).error =
        (kaa_compile_request env ⟨(self.request_id + 1) % 2 ^ 32⟩ services w).error ∧
      (kaa_platform_protocol_serialize_client_sync env (some self) (some services)
        (some allocator) w).calls =
        (kaa_compile_request env ⟨(self.request_id + 1) % 2 ^ 32⟩ services w).calls ∧
      ∀ call ∈ (kaa_platform_protocol_serialize_client_sync env (some self) (some services)
        (some allocator) w).calls, is_output_call call = false) := by
  constructor
  · intro self
    obtain ⟨k, p, kh, ph, m, e, out, w0, herr, hreq, hcalls⟩ :=
      kaa_compile_request_created env self services w (hcreate w)
    have hfail : (kaa_compile_request env self services w).error ≠ KAA_ERR_NONE →
        ∃ pre call, (kaa_compile_request env self services w).calls = pre ++ [call] ∧
          profile_failure call = some (kaa_compile_request env self services w).error := by
      intro hne
      rw [herr] at hne
      obtain ⟨pre, c, h1, h2⟩ := compile_services_failure env _ hunion _ _ _ hne
      refine ⟨[Call.kaa_status_get_endpoint_public_key_hash k kh,
        Call.kaa_status_get_profile_hash p ph,
        Call.kaa_user_compile_request self.request_id e out] ++ pre, c, ?_, by rw [herr]; exact h2⟩
      rw [hcalls, h1, List.append_assoc]
    refine ⟨⟨?_, ?_⟩, fun hne => ⟨hfail hne, ?_⟩,
      fun e1 out1 => kaa_compile_request_generate_after_check env self services w e1 out1⟩
    · intro hne
      obtain ⟨pre, c, h1, h2⟩ := hfail hne
      have hmem : c ∈ (kaa_compile_request env self services w).calls := by
        rw [h1]
        simp
      have hs := (profile_failure_service c _ h2).1
      have hmem1 := (kaa_compile_request_mem env self services w k p e kh ph out _ c _ hs
        hcalls).1 hmem
      obtain ⟨s, hsl, hsc⟩ := compile_services_service_of env _ _ _ _ c hmem1
      rw [hs] at hsc
      simp only [Option.some.injEq] at hsc
      subst hsc
      exact ⟨List.mem_reverse.1 hsl, c, hmem, by rw [h2]; simp⟩
    · rintro ⟨-, c, hmem, hc⟩ hok
      rw [herr] at hok
      have hnf := compile_services_no_failure env _ _ _ _ hok
      cases hpf : profile_failure c with
      | none => exact hc hpf
      | some e1 =>
        have hs := (profile_failure_service c _ hpf).1
        have hmem1 := (kaa_compile_request_mem env self services w k p e kh ph out _ c _ hs
          hcalls).1 hmem
        rw [hnf c hmem1] at hpf
        simp at hpf
    · rw [hreq]
      rw [herr] at hne
      exact (compile_services_request_p env _ _ _ _).1 hne
  · intro self allocator hnil hne
    have hlen : services.length ≠ 0 := by
      simpa using hnil
    have hne0 : ¬ (kaa_compile_request env ⟨(self.request_id + 1) % 2 ^ 32⟩ services w).error = 0 :=
      hne
    refine ⟨?_, ?_, ?_⟩
    · simp only [kaa_platform_protocol_serialize_client_sync, hlen, if_false, hne0]
    · simp only [kaa_platform_protocol_serialize_client_sync, hlen, if_false, hne0]
    · simp only [kaa_platform_protocol_serialize_client_sync, hlen, if_false, hne0]
      exact kaa_compile_request_no_output env _ services w

/-- C3: with the allocations of the request and of the profile union succeeding,
`kaa_compile_request` fails if and only if `profile` is in the feature list and a call to the
profile manager (resync check or content generation) returned an error. With `profile` in the
list the resync check is made, and generation is attempted once a check has succeeded and
reported resync needed; generation is only ever called right after such a check, both are
called only with `profile` in the list, and what the trace records of a call is what the
manager returned. So with `profile` listed, a check that always errs makes the compile fail
with an error of the check, and a check that always reports needed followed by a generation
that always errs makes it fail with an error of the generation; a check that always reports
not needed, or profile calls that never err, or a list without `profile`, give success
whatever the user, event and logging managers return. When the compile fails, the failing
profile call is the last call made, its error is the value returned, and no envelope is
output. `kaa_platform_protocol_serialize_client_sync` then returns that same error, having
made the calls of the compile and no call to the buffer allocator or to the serializer. -/
theorem compile_fails_iff_profile_fails {σ : Type} (env : Collaborators σ)
    (services : List kaa_service_t) (w : σ)
    (hcreate : ∀ s, (env.kaa_sync_request_create s).1 = true)
    (hunion : ∀ s, (env.kaa_union_profile_sync_request_or_null_branch_0_create s).1 = true) :
    (∀ self : kaa_platform_protocol_t,
      ((kaa_compile_request env self services w).error ≠ KAA_ERR_NONE ↔
        KAA_SERVICE_PROFILE ∈ services ∧
        ∃ call ∈ (kaa_compile_request env self services w).calls, profile_failure call ≠ none) ∧
      ((kaa_compile_request env self services w).error ≠ KAA_ERR_NONE →
        (∃ pre call, (kaa_compile_request env self services w).calls = pre ++ [call] ∧
          profile_failure call = some (kaa_compile_request env self services w).error) ∧
        (kaa_compile_request env self services w).request_p = none) ∧
      (∀ e out, Call.kaa_profile_compile_request e out ∈
          (kaa_compile_request env self services w).calls →
        [Call.kaa_profile_need_profile_resync 0 true, Call.kaa_profile_compile_request e out] <:+:
          (kaa_compile_request env self services w).calls) ∧
      (KAA_SERVICE_PROFILE ∈ services →
        ∃ e b, Call.kaa_profile_need_profile_resync e b ∈
          (kaa_compile_request env self services w).calls) ∧
      (Call.kaa_profile_need_profile_resync 0 true ∈
          (kaa_compile_request env self services w).calls →
        ∃ e out, Call.kaa_profile_compile_request e out ∈
          (kaa_compile_request env self services w).calls) ∧
      (∀ e b, Call.kaa_profile_need_profile_resync e b ∈
          (kaa_compile_request env self services w).calls →
        KAA_SERVICE_PROFILE ∈ services ∧
        ∃ s, (env.kaa_profile_need_profile_resync s).1 = e ∧
          (env.kaa_profile_need_profile_resync s).2.1 = b) ∧
      (∀ e out, Call.kaa_profile_compile_request e out ∈
          (kaa_compile_request env self services w).calls →
        KAA_SERVICE_PROFILE ∈ services ∧
        ∃ s, (env.kaa_profile_compile_request s).1 = e ∧
          (env.kaa_profile_compile_request s).2.1 = out) ∧
      (KAA_SERVICE_PROFILE ∈ services →
        (∀ s, (env.kaa_profile_need_profile_resync s).1 ≠ 0) →
        (kaa_compile_request env self services w).error ≠ KAA_ERR_NONE ∧
        ∃ s, (kaa_compile_request env self services w).error =
          (env.kaa_profile_need_profile_resync s).1) ∧
      (KAA_SERVICE_PROFILE ∈ services →
        (∀ s, (env.kaa_profile_need_profile_resync s).1 = 0 ∧
          (env.kaa_profile_need_profile_resync s).2.1 = true) →
        (∀ s, (env.kaa_profile_compile_request s).1 ≠ 0) →
        (kaa_compile_request env self services w).error ≠ KAA_ERR_NONE ∧
        ∃ s, (kaa_compile_request env self services w).error =
          (env.kaa_profile_compile_request s).1) ∧
      (KAA_SERVICE_PROFILE ∈ services →
        (∀ s, (env.kaa_profile_need_profile_resync s).1 = 0 ∧
          (env.kaa_profile_need_profile_resync s).2.1 = false) →
        (kaa_compile_request env self services w).error = KAA_ERR_NONE ∧
        ∀ e out, Call.kaa_profile_compile_request e out ∉
          (kaa_compile_request env self services w).calls) ∧
      ((KAA_SERVICE_PROFILE ∉ services ∨
          ((∀ s, (env.kaa_profile_need_profile_resync s).1 = 0) ∧
            ∀ s, (env.kaa_profile_compile_request s).1 = 0)) →
        (kaa_compile_request env self services w).error = KAA_ERR_NONE)) ∧
    (∀ (self : kaa_platform_protocol_t) (allocator : kaa_buffer_alloc_fn σ), services ≠ [] →
      (kaa_compile_request env ⟨(self.request_id + 1) % 2 ^ 32⟩ services w).error ≠ KAA_ERR_NONE →
      (kaa_platform_protocol_serialize_client_sync env (some self) (some services)
        (some allocator) w).error =
        (kaa_compile_request env ⟨(self.request_id + 1) % 2 ^ 32⟩ services w).error ∧
      (kaa_platform_protocol_serialize_client_sync env (some self) (some services)
        (some allocator) w).calls =
        (kaa_compile_request env ⟨(self.request_id + 1) % 2 ^ 32⟩ services w).calls ∧
      ∀ call ∈ (kaa_platform_protocol_serialize_client_sync env (some self) (some services)
        (some allocator) w).calls, is_output_call call = false) := by
  obtain ⟨hcompile, hsync⟩ := compile_failure_of_trace env services w hcreate hunion
  refine ⟨fun self => ?_, hsync⟩
  obtain ⟨hiff, hshape, hafter⟩ := hcompile self
  obtain ⟨hcheck, hlisted, hgen⟩ :=
    kaa_compile_request_profile_calls env self services w hcreate hunion
  obtain ⟨hneed, hcontent, -⟩ := kaa_compile_request_answered env self services w
  have hlast : (kaa_compile_request env self services w).error ≠ KAA_ERR_NONE →
      (∃ s, (kaa_compile_request env self services w).error =
          (env.kaa_profile_need_profile_resync s).1) ∨
      (∃ s t, (kaa_compile_request env self services w).error =
          (env.kaa_profile_compile_request s).1 ∧
        (env.kaa_profile_need_profile_resync t).1 = 0 ∧
        (env.kaa_profile_need_profile_resync t).2.1 = true) := by
    intro hne
    obtain ⟨⟨pre, call, hcalls, hcall⟩, -⟩ := hshape hne
    have hmem : call ∈ (kaa_compile_request env self services w).calls := by
      rw [hcalls]
      simp
    rcases profile_failure_call call _ hcall with ⟨b, hc⟩ | ⟨out, hc⟩
    · subst hc
      obtain ⟨s, hs, -⟩ := hneed _ b hmem
      exact Or.inl ⟨s, hs.symm⟩
    · subst hc
      obtain ⟨s, hs, -⟩ := hcontent _ out hmem
      obtain ⟨t, ht, htb⟩ := hneed 0 true ((hafter _ out hmem).subset (by simp))
      exact Or.inr ⟨s, t, hs.symm, ht, htb⟩
  refine ⟨hiff, hshape, hafter, hcheck, hgen, fun e b hm => ⟨hlisted e b hm, hneed e b hm⟩,
    fun e out hm => ⟨hlisted 0 true ((hafter e out hm).subset (by simp)), hcontent e out hm⟩,
    fun hp hfail => ?_, fun hp hok hfail => ?_, fun hp hok => ?_, fun h => ?_⟩
  · obtain ⟨e, b, hm⟩ := hcheck hp
    obtain ⟨s, hs, -⟩ := hneed e b hm
    have hne : (kaa_compile_request env self services w).error ≠ KAA_ERR_NONE :=
      hiff.2 ⟨hp, _, hm, by
        have he : e ≠ 0 := hs ▸ hfail s
        simp [profile_failure, he]⟩
    refine ⟨hne, ?_⟩
    rcases hlast hne with h1 | ⟨s1, t, -, ht, -⟩
    · exact h1
    · exact absurd ht (hfail t)
  · obtain ⟨e, b, hm⟩ := hcheck hp
    obtain ⟨s, hs, hsb⟩ := hneed e b hm
    rw [(hok s).1] at hs
    rw [(hok s).2] at hsb
    subst hs
    subst hsb
    obtain ⟨e1, out, hm1⟩ := hgen hm
    obtain ⟨s1, hs1, -⟩ := hcontent e1 out hm1
    have hne : (kaa_compile_request env self services w).error ≠ KAA_ERR_NONE :=
      hiff.2 ⟨hp, _, hm1, by
        have he : e1 ≠ 0 := hs1 ▸ hfail s1
        simp [profile_failure, he]⟩
    refine ⟨hne, ?_⟩
    rcases hlast hne with ⟨s2, h2⟩ | ⟨s2, t, h2, -, -⟩
    · rw [(hok s2).1] at h2
      exact absurd h2 hne
    · exact ⟨s2, h2⟩
  · have hnone : ∀ e out, Call.kaa_profile_compile_request e out ∉
        (kaa_compile_request env self services w).calls := by
      intro e out hm
      obtain ⟨t, -, htb⟩ := hneed 0 true ((hafter e out hm).subset (by simp))
      rw [(hok t).2] at htb
      exact absurd htb (by simp)
    refine ⟨?_, hnone⟩
    by_contra hne
    rcases hlast hne with ⟨s2, h2⟩ | ⟨s2, t, -, -, htb⟩
    · rw [(hok s2).1] at h2
      exact hne h2
    · rw [(hok t).2] at htb
      exact absurd htb (by simp)
  · by_contra hne
    rcases h with hnp | ⟨hn, hg⟩
    · exact hnp (hiff.1 hne).1
    · rcases hlast hne with ⟨s2, h2⟩ | ⟨s2, t, h2, -, -⟩
      · rw [hn s2] at h2
        exact hne h2
      · rw [hg s2] at h2
        exact hne h2

/-- The statement of C3 at the feature list (profile, event). With a resync check that
returns the error `-7` the compile returns `-7` and no envelope, the check being the only
profile call made, and the client sync returns `-7` without an output call; with a check that
reports needed and a generation that returns `-9` the compile returns `-9`; with a check that
reports not needed it succeeds; and with user, event and logging managers that all fail with
`-5` it succeeds. -/
theorem compile_fails_iff_profile_fails_witness :
    (∀ s, ((example_env (-7, false) (0, none) none none).kaa_sync_request_create s).1 = true) ∧
    (∀ s, ((example_env (-7, false) (0, none)
      none none).kaa_union_profile_sync_request_or_null_branch_0_create s).1 = true) ∧
    (kaa_compile_request (example_env (-7, false) (0, none) none none) ⟨1⟩
      [KAA_SERVICE_PROFILE, KAA_SERVICE_EVENT] 0).error = -7 ∧
    (kaa_compile_request (example_env (-7, false) (0, none) none none) ⟨1⟩
      [KAA_SERVICE_PROFILE, KAA_SERVICE_EVENT] 0).request_p.isNone = true ∧
    (kaa_compile_request (example_env (-7, false) (0, none) none none) ⟨1⟩
      [KAA_SERVICE_PROFILE, KAA_SERVICE_EVENT] 0).calls.filter
        (fun c => (service_of c == some KAA_SERVICE_PROFILE)) =
      [Call.kaa_profile_need_profile_resync (-7) false] ∧
    (kaa_compile_request (example_env (0, true) (-9, none) none none) ⟨1⟩
      [KAA_SERVICE_PROFILE, KAA_SERVICE_EVENT] 0).error = -9 ∧
    (kaa_compile_request (example_env (0, true) (-9, none) none none) ⟨1⟩
      [KAA_SERVICE_PROFILE, KAA_SERVICE_EVENT] 0).calls.filter
        (fun c => (service_of c == some KAA_SERVICE_PROFILE)) =
      [Call.kaa_profile_need_profile_resync 0 true, Call.kaa_profile_compile_request (-9) none] ∧
    (kaa_compile_request (example_env (0, false) (-9, none) none none) ⟨1⟩
      [KAA_SERVICE_PROFILE, KAA_SERVICE_EVENT] 0).error = KAA_ERR_NONE ∧
    (kaa_compile_request (failing_compilers_env (0, true) (0, some 3)) ⟨1⟩
      [KAA_SERVICE_PROFILE, KAA_SERVICE_EVENT, KAA_SERVICE_LOGGING] 0).error =
      KAA_ERR_NONE ∧
    (Call.kaa_user_compile_request 1 (-5) none ∈
      (kaa_compile_request (failing_compilers_env (0, true) (0, some 3)) ⟨1⟩
        [KAA_SERVICE_PROFILE, KAA_SERVICE_EVENT, KAA_SERVICE_LOGGING] 0).calls ∧
      Call.kaa_event_compile_request 1 (-5) none ∈
      (kaa_compile_request (failing_compilers_env (0, true) (0, some 3)) ⟨1⟩
        [KAA_SERVICE_PROFILE, KAA_SERVICE_EVENT, KAA_SERVICE_LOGGING] 0).calls ∧
      Call.kaa_logging_compile_request (-5) none ∈
      (kaa_compile_request (failing_compilers_env (0, true) (0, some 3)) ⟨1⟩
        [KAA_SERVICE_PROFILE, KAA_SERVICE_EVENT, KAA_SERVICE_LOGGING] 0).calls) ∧
    (kaa_platform_protocol_serialize_client_sync (example_env (-7, false) (0, none) none none)
      (some ⟨0⟩) (some [KAA_SERVICE_PROFILE, KAA_SERVICE_EVENT]) (some example_allocator)
      0).error = -7 ∧
    (kaa_platform_protocol_serialize_client_sync (example_env (-7, false) (0, none) none none)
      (some ⟨0⟩) (some [KAA_SERVICE_PROFILE, KAA_SERVICE_EVENT]) (some example_allocator)
      0).calls.all (fun c => !is_output_call c) = true ∧
    ((kaa_compile_request (example_env (-7, false) (0, none) none none) ⟨1⟩
        [KAA_SERVICE_PROFILE, KAA_SERVICE_EVENT] 0).error ≠ KAA_ERR_NONE ∧
      ∃ s, (kaa_compile_request (example_env (-7, false) (0, none) none none) ⟨1⟩
        [KAA_SERVICE_PROFILE, KAA_SERVICE_EVENT] 0).error =
        ((example_env (-7, false) (0, none) none none).kaa_profile_need_profile_resync s).1) ∧
    (kaa_platform_protocol_serialize_client_sync (example_env (-7, false) (0, none) none none)
      (some ⟨0⟩) (some [KAA_SERVICE_PROFILE, KAA_SERVICE_EVENT]) (some example_allocator)
      0).error =
      (kaa_compile_request (example_env (-7, false) (0, none) none none) ⟨(0 + 1) % 2 ^ 32⟩
        [KAA_SERVICE_PROFILE, KAA_SERVICE_EVENT] 0).error :=
  ⟨fun _ => rfl, fun _ => rfl, by decide, by decide, by decide, by decide, by decide, by decide,
    by decide, by decide, by decide, by decide,
    ((compile_fails_iff_profile_fails (example_env (-7, false) (0, none) none none)
      [KAA_SERVICE_PROFILE, KAA_SERVICE_EVENT] 0 (fun _ => rfl) (fun _ => rfl)).1
        ⟨1⟩).2.2.2.2.2.2.2.1 (by decide) (fun _ => show (-7 : kaa_error_t) ≠ 0 by decide),
    ((compile_fails_iff_profile_fails (example_env (-7, false) (0, none) none none)
      [KAA_SERVICE_PROFILE, KAA_SERVICE_EVENT] 0 (fun _ => rfl) (fun _ => rfl)).2 ⟨0⟩
        example_allocator (by decide) (by decide)).1⟩

theorem kaa_compile_request_uses_request_id {σ : Type} (env : Collaborators σ)
    (self : kaa_platform_protocol_t) (services : List kaa_service_t) (w : σ) :
    (∀ c ∈ (kaa_compile_request env self services w).calls, uses_request_id self.request_id c) ∧
    ((kaa_compile_request env self services w).calls ≠ [] →
      ∃ e out, Call.kaa_user_compile_request self.request_id e out ∈
        (kaa_compile_request env self services w).calls) ∧
    (∀ r, (kaa_compile_request env self services w).request_p = some r →
      r.request_id = ⟨BRANCH_0, some self.request_id⟩) := by
  cases hc : (env.kaa_sync_request_create w).1 with
  | false =>
    obtain ⟨-, h2, h3⟩ := kaa_compile_request_not_created env self services w hc
    rw [h2, h3]
    simp
  | true =>
    obtain ⟨k, p, kh, ph, m, e, out, w0, -, hreq, hcalls⟩ :=
      kaa_compile_request_created env self services w hc
    rw [hcalls, hreq]
    refine ⟨?_, fun _ => ⟨e, out, by simp⟩, ?_⟩
    · intro c hmem
      simp only [List.mem_append, List.mem_cons, List.mem_singleton, List.not_mem_nil,
        or_false] at hmem
      rcases hmem with (rfl | rfl | rfl) | hmem
      · trivial
      · trivial
      · rfl
      · exact compile_services_uses_request_id env _ _ _ _ c hmem
    · intro r hr
      exact (compile_services_frame env _ _ _ _ r hr).1

theorem serialize_client_sync_uses_request_id {σ : Type} (env : Collaborators σ)
    (self : kaa_platform_protocol_t) (services : List kaa_service_t)
    (allocator : kaa_buffer_alloc_fn σ) (w : σ) (hne : services ≠ []) :
    (kaa_platform_protocol_serialize_client_sync env (some self) (some services)
      (some allocator) w).self = some ⟨(self.request_id + 1) % 2 ^ 32⟩ ∧
    (∀ c ∈ (kaa_platform_protocol_serialize_client_sync env (some self) (some services)
      (some allocator) w).calls, uses_request_id ((self.request_id + 1) % 2 ^ 32) c) ∧
    ((kaa_platform_protocol_serialize_client_sync env (some self) (some services)
        (some allocator) w).calls ≠ [] →
      ∃ e out, Call.kaa_user_compile_request ((self.request_id + 1) % 2 ^ 32) e out ∈
        (kaa_platform_protocol_serialize_client_sync env (some self) (some services)
          (some allocator) w).calls) := by
  have hlen : services.length ≠ 0 := by
    simpa using hne
  obtain ⟨h1, h2, h3⟩ :=
    kaa_compile_request_uses_request_id env ⟨(self.request_id + 1) % 2 ^ 32⟩ services w
  by_cases hok : (kaa_compile_request env ⟨(self.request_id + 1) % 2 ^ 32⟩ services w).error = 0
  · obtain ⟨r, hr⟩ : ∃ r, (kaa_compile_request env ⟨(self.request_id + 1) % 2 ^ 32⟩
        services w).request_p = some r := by
      cases hc : (env.kaa_sync_request_create w).1 with
      | false =>
        rw [(kaa_compile_request_not_created env _ services w hc).1] at hok
        simp [KAA_ERR_NOMEM] at hok
      | true =>
        obtain ⟨k, p, kh, ph, m, e, out, w0, herr, hreq, -⟩ :=
          kaa_compile_request_created env ⟨(self.request_id + 1) % 2 ^ 32⟩ services w hc
        rw [herr] at hok
        obtain ⟨r, hr, -⟩ := (compile_services_request_p env _ _ _ _).2 hok
        exact ⟨r, by rw [hreq, hr]⟩
    have hne1 : (kaa_compile_request env ⟨(self.request_id + 1) % 2 ^ 32⟩ services w).calls ≠ [] := by
      intro hnil
      cases hc : (env.kaa_sync_request_create w).1 with
      | false =>
        rw [(kaa_compile_request_not_created env _ services w hc).2.1] at hr
        simp at hr
      | true =>
        obtain ⟨k, p, kh, ph, m, e, out, w0, -, -, hcalls⟩ :=
          kaa_compile_request_created env ⟨(self.request_id + 1) % 2 ^ 32⟩ services w hc
        rw [hcalls] at hnil
        simp at hnil
    obtain ⟨e, out, hu⟩ := h2 hne1
    rcases hb : (allocator (kaa_compile_request env ⟨(self.request_id + 1) % 2 ^ 32⟩
        services w).world (kaa_compile_request env ⟨(self.request_id + 1) % 2 ^ 32⟩
        services w).result_size).1 with _ | b
    · simp only [kaa_platform_protocol_serialize_client_sync, hlen, if_false, hok, if_true, hb]
      refine ⟨trivial, ?_, fun _ => ⟨e, out, List.mem_append_left _ hu⟩⟩
      intro c hc
      simp only [List.mem_append, List.mem_singleton] at hc
      rcases hc with hc | rfl
      · exact h1 c hc
      · trivial
    · simp only [kaa_platform_protocol_serialize_client_sync, hlen, if_false, hok, if_true, hb,
        hr, kaa_serialize_request]
      refine ⟨trivial, ?_, fun _ => ⟨e, out, List.mem_append_left _ hu⟩⟩
      intro c hc
      simp only [List.mem_append, List.mem_cons, List.mem_singleton, List.not_mem_nil,
        or_false] at hc
      rcases hc with hc | rfl | rfl
      · exact h1 c hc
      · trivial
      · exact h3 r hr
  · simp only [kaa_platform_protocol_serialize_client_sync, hlen, if_false, hok]
    exact ⟨trivial, h1, h2⟩

theorem client_syncs_length {σ : Type} (env : Collaborators σ)
    (syncs : List (List kaa_service_t × kaa_buffer_alloc_fn σ)) (self : kaa_platform_protocol_t)
    (w : σ) : (client_syncs env syncs self w).length = syncs.length := by
  induction syncs generalizing self w with
  | nil => rfl
  | cons s rest ih =>
    obtain ⟨services, allocator⟩ := s
    simp [client_syncs, ih]

theorem client_syncs_request_ids {σ : Type} (env : Collaborators σ)
    (syncs : List (List kaa_service_t × kaa_buffer_alloc_fn σ)) (self : kaa_platform_protocol_t)
    (w : σ) (hN : self.request_id + syncs.length < 2 ^ 32) (hvalid : ∀ s ∈ syncs, s.1 ≠ []) :
    ∀ i r, (client_syncs env syncs self w)[i]? = some r →
      r.self = some ⟨self.request_id + i + 1⟩ ∧
      (∀ c ∈ r.calls, uses_request_id (self.request_id + i + 1) c) ∧
      (r.calls ≠ [] →
        ∃ e out, Call.kaa_user_compile_request (self.request_id + i + 1) e out ∈ r.calls) := by
  induction syncs generalizing self w with
  | nil =>
    intro i r h
    simp [client_syncs] at h
  | cons s rest ih =>
    obtain ⟨services, allocator⟩ := s
    intro i r h
    have hne : services ≠ [] := hvalid (services, allocator) (List.mem_cons_self _ _)
    have hstep := serialize_client_sync_uses_request_id env self services allocator w hne
    have hmod : (self.request_id + 1) % 2 ^ 32 = self.request_id + 1 := by
      apply Nat.mod_eq_of_lt
      simp only [List.length_cons] at hN
      omega
    rw [hmod] at hstep
    cases i with
    | zero =>
      simp only [client_syncs, List.getElem?_cons_zero, Option.some.injEq] at h
      subst h
      exact hstep
    | succ j =>
      simp only [client_syncs, List.getElem?_cons_succ] at h
      rw [hstep.1] at h
      simp only [Option.getD_some] at h
      have := ih ⟨self.request_id + 1⟩ _ (by simp only [List.length_cons] at hN ⊢; omega)
        (fun s hs => hvalid s (List.mem_cons_of_mem _ hs)) j r h
      have heq : self.request_id + 1 + j + 1 = self.request_id + (j + 1) + 1 := by omega
      simp only [heq] at this
      exact this

/-- C1: starting from a freshly created protocol object, for every run of fewer than `2^32`
calls of `kaa_platform_protocol_serialize_client_sync` that pass the parameter check, the
`k`-th call (counted from 1) leaves the counter at `k` and uses the request id `k`: every
call of the user or event manager it makes is given `k`, every envelope it hands to the
serializer stores `k`, and unless it made no external call at all it called the user manager
with `k`; this holds whatever the collaborators and the allocators of earlier calls did. -/
theorem request_ids_count_up {σ : Type} (env : Collaborators σ) (w0 w : σ)
    (self : kaa_platform_protocol_t)
    (syncs : List (List kaa_service_t × kaa_buffer_alloc_fn σ))
    (hcreate : kaa_platform_protocol_create env true true w0 = (KAA_ERR_NONE, some self, w))
    (hN : syncs.length < 2 ^ 32) (hvalid : ∀ s ∈ syncs, s.1 ≠ []) :
    (client_syncs env syncs self w).length = syncs.length ∧
    ∀ i r, (client_syncs env syncs self w)[i]? = some r →
      r.self = some ⟨i + 1⟩ ∧
      (∀ c ∈ r.calls, uses_request_id (i + 1) c) ∧
      (r.calls ≠ [] → ∃ e out, Call.kaa_user_compile_request (i + 1) e out ∈ r.calls) := by
  have hself : self.request_id = 0 := by
    simp only [kaa_platform_protocol_create, Bool.and_self, if_true] at hcreate
    split_ifs at hcreate
    · simp only [Prod.mk.injEq, Option.some.injEq, true_and] at hcreate
      rw [← hcreate.1]
    · simp [KAA_ERR_NOMEM, KAA_ERR_NONE] at hcreate
  refine ⟨client_syncs_length env syncs self w, ?_⟩
  intro i r h
  have := client_syncs_request_ids env syncs self w (by rw [hself]; simpa using hN) hvalid i r h
  simpa [hself] using this

/-- The statement of C1 at three calls, of which the second fails in compilation (the profile
content generation returns `-7`) and the third in buffer allocation: the third call still
uses the request id `3`. -/
theorem request_ids_count_up_witness :
    kaa_platform_protocol_create (example_env (0, true) (-7, some 9) none none) true true 0 =
      (KAA_ERR_NONE, some ⟨0⟩, 0) ∧
    (client_syncs (example_env (0, true) (-7, some 9) none none)
      [([KAA_SERVICE_EVENT], example_allocator), ([KAA_SERVICE_PROFILE], example_allocator),
       ([other 3], failing_allocator)] ⟨0⟩ 0).map (fun r => r.error) =
      [KAA_ERR_NONE, -7, KAA_ERR_WRITE_FAILED] ∧
    ∀ r, (client_syncs (example_env (0, true) (-7, some 9) none none)
      [([KAA_SERVICE_EVENT], example_allocator), ([KAA_SERVICE_PROFILE], example_allocator),
       ([other 3], failing_allocator)] ⟨0⟩ 0)[2]? = some r →
      r.self = some ⟨2 + 1⟩ ∧
      (∀ c ∈ r.calls, uses_request_id (2 + 1) c) ∧
      (r.calls ≠ [] → ∃ e out, Call.kaa_user_compile_request (2 + 1) e out ∈ r.calls) :=
  ⟨by decide, by decide,
    (request_ids_count_up (example_env (0, true) (-7, some 9) none none) 0 0 ⟨0⟩
      [([KAA_SERVICE_EVENT], example_allocator), ([KAA_SERVICE_PROFILE], example_allocator),
       ([other 3], failing_allocator)] (by decide) (by decide) (by simp)).2 2⟩

/-! ## The response demultiplexer -/

theorem responseId_defined (response : kaa_sync_response_t)
    (h : ∀ u, response.request_id = some u → u.type = BRANCH_0 → u.data ≠ none) :
    ∃ id, responseId response = Outcome.returned id := by
  unfold responseId
  cases hr : response.request_id with
  | none => exact ⟨0, rfl⟩
  | some u =>
    obtain ⟨t, d⟩ := u
    by_cases ht : t = BRANCH_0
    · cases d with
      | none => exact absurd rfl (h _ hr ht)
      | some v => exact ⟨v, by simp [ht]⟩
    · exact ⟨0, by simp [ht]⟩

theorem event_parts_defined (response : kaa_sync_response_t)
    (h : ∀ u, response.event_sync_response = some u → u.type = BRANCH_0 → u.data ≠ none) :
    ∃ parts, event_parts response = Outcome.returned parts := by
  unfold event_parts
  cases hr : response.event_sync_response with
  | none => exact ⟨(none, none), rfl⟩
  | some u =>
    obtain ⟨t, d⟩ := u
    by_cases ht : t = BRANCH_0
    · cases d with
      | none => exact absurd rfl (h _ hr ht)
      | some ev =>
        cases hn : ev.event_sequence_number_response with
        | none => exact ⟨_, by simp only [ht, if_true, hn]; rfl⟩
        | some n => exact ⟨_, by simp only [ht, if_true, hn]; rfl⟩
    · exact ⟨(none, none), by simp [ht]⟩

theorem process_server_sync_defined {σ : Type} (env : Collaborators σ)
    (self : kaa_platform_protocol_t) (buffer : List Nat) (w : σ)
    (response : kaa_sync_response_t) (hne : buffer ≠ [])
    (hparse : env.kaa_sync_response_deserialize buffer = some response)
    (hdef : extraction_defined response) :
    ∃ id received_events event_sn_response,
      responseId response = Outcome.returned id ∧
      event_parts response = Outcome.returned (received_events, event_sn_response) ∧
      kaa_platform_protocol_process_server_sync env (some self) (some buffer) w =
        Outcome.returned ⟨KAA_ERR_NONE, some self,
          (env.kaa_status_save (dispatch_logging env response (dispatch_profile env response
            (dispatch_user env response
              (env.kaa_event_handle_sync w id event_sn_response received_events).2).1).1).1).2,
          Call.kaa_event_handle_sync id event_sn_response received_events
              (env.kaa_event_handle_sync w id event_sn_response received_events).1 ::
            ((dispatch_user env response
                (env.kaa_event_handle_sync w id event_sn_response received_events).2).2 ++
              (dispatch_profile env response (dispatch_user env response
                (env.kaa_event_handle_sync w id event_sn_response received_events).2).1).2 ++
              (dispatch_logging env response (dispatch_profile env response
                (dispatch_user env response
                  (env.kaa_event_handle_sync w id event_sn_response received_events).2).1).1).2 ++
              [Call.kaa_status_save (env.kaa_status_save (dispatch_logging env response
                (dispatch_profile env response (dispatch_user env response
                  (env.kaa_event_handle_sync w id event_sn_response
                    received_events).2).1).1).1).1])⟩ := by
  obtain ⟨id, hid⟩ := responseId_defined response hdef.1
  obtain ⟨⟨ev, sn⟩, hparts⟩ := event_parts_defined response hdef.2
  have hlen : buffer.length ≠ 0 := by
    simpa using hne
  refine ⟨id, ev, sn, hid, hparts, ?_⟩
  simp only [kaa_platform_protocol_process_server_sync, hlen, if_false, hparse, hid, hparts]

theorem dispatch_user_calls {σ : Type} (env : Collaborators σ) (response : kaa_sync_response_t)
    (w : σ) :
    (∀ u usr, response.user_sync_response = some u → u.type = BRANCH_0 → u.data = some usr →
      ∃ e, (dispatch_user env response w).2 = [Call.kaa_user_manager_handle_sync
        (branch_0_data usr.user_attach_response) (branch_0_data usr.user_attach_notification)
        (branch_0_data usr.user_detach_notification) e]) ∧
    ((¬ ∃ u usr, response.user_sync_response = some u ∧ u.type = BRANCH_0 ∧ u.data = some usr) →
      (dispatch_user env response w).2 = []) := by
  unfold dispatch_user
  cases hr : response.user_sync_response with
  | none => simp
  | some u =>
    obtain ⟨t, d⟩ := u
    by_cases ht : t = BRANCH_0
    · cases d with
      | none =>
        simp only [ht, if_true]
        refine ⟨fun u usr hu _ hd => ?_, fun _ => trivial⟩
        simp only [Option.some.injEq] at hu
        subst hu
        simp at hd
      | some usr =>
        simp only [ht, if_true]
        refine ⟨fun u usr1 hu _ hd => ?_, fun hn => absurd ⟨_, usr, rfl, rfl, rfl⟩ hn⟩
        simp only [Option.some.injEq] at hu
        subst hu
        simp only [Option.some.injEq] at hd
        subst hd
        exact ⟨_, rfl⟩
    · simp only [ht, if_false]
      refine ⟨fun u usr hu hu0 _ => ?_, fun _ => trivial⟩
      simp only [Option.some.injEq] at hu
      subst hu
      exact absurd hu0 ht

theorem dispatch_profile_not_user {σ : Type} (env : Collaborators σ)
    (response : kaa_sync_response_t) (w : σ) :
    ∀ c ∈ (dispatch_profile env response w).2,
      is_user_handle c = false ∧ is_event_handle c = false := by
  unfold dispatch_profile
  cases response.profile_sync_response with
  | none => simp
  | some u => by_cases ht : u.type = BRANCH_0 <;> simp [ht, is_user_handle, is_event_handle]

theorem dispatch_logging_not_user {σ : Type} (env : Collaborators σ)
    (response : kaa_sync_response_t) (w : σ) :
    ∀ c ∈ (dispatch_logging env response w).2,
      is_user_handle c = false ∧ is_event_handle c = false := by
  unfold dispatch_logging
  cases response.log_sync_response with
  | none => simp
  | some u => by_cases ht : u.type = BRANCH_0 <;> simp [ht, is_user_handle, is_event_handle]

theorem dispatch_user_only_user {σ : Type} (env : Collaborators σ)
    (response : kaa_sync_response_t) (w : σ) :
    ∀ c ∈ (dispatch_user env response w).2, is_user_handle c = true ∧ is_event_handle c = false := by
  unfold dispatch_user
  cases response.user_sync_response with
  | none => simp
  | some u =>
    obtain ⟨t, d⟩ := u
    by_cases ht : t = BRANCH_0
    · cases d with
      | none => simp [ht]
      | some usr => simp [ht, is_user_handle, is_event_handle]
    · simp [ht]

/-- C8 (the code departs from the claim): for a non-empty buffer on which the deserializer
yields no envelope, `kaa_platform_protocol_process_server_sync` does not return a
deserialization error; it reads `response->request_id` through the null response
(line 247), which the embedding records as a null dereference. -/
theorem unparsed_buffer_null_dereference {σ : Type} (env : Collaborators σ)
    (self : kaa_platform_protocol_t) (buffer : List Nat) (w : σ) (hne : buffer ≠ [])
    (hparse : env.kaa_sync_response_deserialize buffer = none) :
    kaa_platform_protocol_process_server_sync env (some self) (some buffer) w =
      Outcome.null_dereference := by
  have hlen : buffer.length ≠ 0 := by
    simpa using hne
  simp only [kaa_platform_protocol_process_server_sync, hlen, if_false, hparse]

/-- The statement of C8 at a one-byte buffer that does not parse. -/
theorem unparsed_buffer_null_dereference_witness :
    [0] ≠ ([] : List Nat) ∧
    (example_env (0, false) (0, none) none none).kaa_sync_response_deserialize [0] = none ∧
    kaa_platform_protocol_process_server_sync (example_env (0, false) (0, none) none none)
      (some ⟨0⟩) (some [0]) 0 = Outcome.null_dereference :=
  ⟨by decide, rfl,
    unparsed_buffer_null_dereference (example_env (0, false) (0, none) none none) ⟨0⟩ [0] 0
      (by decide) rfl⟩

/-- C9 (the code departs from the claim): for a parsed response whose event section is tagged
Present (branch 0) while its payload pointer is null, the event manager's handler is not
called at all: the extraction of the sequence-number acknowledgement reads
`ev_response->event_sequence_number_response` through the null payload (line 258), which the
embedding records as a null dereference. -/
theorem event_payload_null_dereference {σ : Type} (env : Collaborators σ)
    (self : kaa_platform_protocol_t) (buffer : List Nat) (w : σ)
    (response : kaa_sync_response_t) (hne : buffer ≠ [])
    (hparse : env.kaa_sync_response_deserialize buffer = some response)
    (hevent : response.event_sync_response = some ⟨BRANCH_0, none⟩) :
    kaa_platform_protocol_process_server_sync env (some self) (some buffer) w =
      Outcome.null_dereference := by
  have hlen : buffer.length ≠ 0 := by
    simpa using hne
  have hparts : event_parts response = Outcome.null_dereference := by
    simp [event_parts, hevent]
  simp only [kaa_platform_protocol_process_server_sync, hlen, if_false, hparse, hparts]
  cases responseId response <;> rfl

/-- The statement of C9 at the response with request id 5, an event section tagged Present
with a null payload, and no other section. -/
theorem event_payload_null_dereference_witness :
    [0] ≠ ([] : List Nat) ∧
    (example_env (0, false) (0, none) none
      (some ⟨some ⟨BRANCH_0, some 5⟩, some ⟨BRANCH_0, none⟩, none, none,
        none⟩)).kaa_sync_response_deserialize [0] =
      some ⟨some ⟨BRANCH_0, some 5⟩, some ⟨BRANCH_0, none⟩, none, none, none⟩ ∧
    kaa_platform_protocol_process_server_sync (example_env (0, false) (0, none) none
      (some ⟨some ⟨BRANCH_0, some 5⟩, some ⟨BRANCH_0, none⟩, none, none, none⟩))
      (some ⟨0⟩) (some [0]) 0 = Outcome.null_dereference :=
  ⟨by decide, rfl,
    event_payload_null_dereference _ ⟨0⟩ [0] 0 _ (by decide) rfl rfl⟩

/-- Where the extraction of the request id and of the event parts is defined, the event
manager's handler is called exactly once, with the request id of the response (0 when it is
absent) and the two parts extracted. -/
theorem event_handler_called_once {σ : Type} (env : Collaborators σ)
    (self : kaa_platform_protocol_t) (buffer : List Nat) (w : σ)
    (response : kaa_sync_response_t) (hne : buffer ≠ [])
    (hparse : env.kaa_sync_response_deserialize buffer = some response)
    (hdef : extraction_defined response) :
    ∃ r id received_events event_sn_response e,
      kaa_platform_protocol_process_server_sync env (some self) (some buffer) w =
        Outcome.returned r ∧
      responseId response = Outcome.returned id ∧
      event_parts response = Outcome.returned (received_events, event_sn_response) ∧
      r.calls.filter is_event_handle =
        [Call.kaa_event_handle_sync id event_sn_response received_events e] := by
  obtain ⟨id, ev, sn, hid, hparts, hrun⟩ :=
    process_server_sync_defined env self buffer w response hne hparse hdef
  refine ⟨_, id, ev, sn, (env.kaa_event_handle_sync w id sn ev).1, hrun, hid, hparts, ?_⟩
  simp only [List.filter_cons, is_event_handle, if_true, List.filter_append]
  have h1 := dispatch_user_only_user env response
    (env.kaa_event_handle_sync w id sn ev).2
  have h2 := dispatch_profile_not_user env response (dispatch_user env response
    (env.kaa_event_handle_sync w id sn ev).2).1
  have h3 := dispatch_logging_not_user env response (dispatch_profile env response
    (dispatch_user env response (env.kaa_event_handle_sync w id sn ev).2).1).1
  rw [List.filter_eq_nil_iff.2 (fun c hc => by simp [(h1 c hc).2]),
    List.filter_eq_nil_iff.2 (fun c hc => by simp [(h2 c hc).2]),
    List.filter_eq_nil_iff.2 (fun c hc => by simp [(h3 c hc).2])]
  simp [is_event_handle]

/-- C10 (as stated, refuted): the response with request id 5 whose user section is tagged
Present (branch 0) with a null payload, and with no other section, is processed to the end,
and the user manager's handler is not called although the user section is Present; the test
`usr_response != NULL` on line 269 skips the call. -/
theorem user_present_without_payload_not_dispatched :
    ∃ r, kaa_platform_protocol_process_server_sync (example_env (0, false) (0, none) none
        (some ⟨some ⟨BRANCH_0, some 5⟩, none, some ⟨BRANCH_0, none⟩, none, none⟩))
        (some ⟨0⟩) (some [0]) 0 = Outcome.returned r ∧
      ¬ ((∃ c ∈ r.calls, is_user_handle c = true) ↔
        ∃ u, (⟨some ⟨BRANCH_0, some 5⟩, none, some ⟨BRANCH_0, none⟩, none, none⟩ :
          kaa_sync_response_t).user_sync_response = some u ∧ u.type = BRANCH_0) := by
  refine ⟨_, rfl, ?_⟩
  intro h
  obtain ⟨c, hc, hu⟩ := h.2 ⟨_, rfl, rfl⟩
  revert c
  decide

/-- C10 (amended): for every parsed response on which the extraction of the request id and of
the event parts is defined, `kaa_platform_protocol_process_server_sync` returns, and it calls
the user manager's handler if and only if the user section is tagged Present (branch 0) and
its payload pointer is not null; it then calls it exactly once, each of the three arguments
(attach response, attach notification, detach notification) being the nested value when
that sub-part is there and tagged branch 0, and null otherwise, independently of the other
two. -/
theorem user_handler_iff_payload {σ : Type} (env : Collaborators σ)
    (self : kaa_platform_protocol_t) (buffer : List Nat) (w : σ)
    (response : kaa_sync_response_t) (hne : buffer ≠ [])
    (hparse : env.kaa_sync_response_deserialize buffer = some response)
    (hdef : extraction_defined response) :
    ∃ r, kaa_platform_protocol_process_server_sync env (some self) (some buffer) w =
        Outcome.returned r ∧
      (∀ u usr, response.user_sync_response = some u → u.type = BRANCH_0 → u.data = some usr →
        ∃ e, r.calls.filter is_user_handle = [Call.kaa_user_manager_handle_sync
          (branch_0_data usr.user_attach_response) (branch_0_data usr.user_attach_notification)
          (branch_0_data usr.user_detach_notification) e]) ∧
      ((¬ ∃ u usr, response.user_sync_response = some u ∧ u.type = BRANCH_0 ∧
          u.data = some usr) →
        r.calls.filter is_user_handle = []) := by
  obtain ⟨id, ev, sn, -, -, hrun⟩ :=
    process_server_sync_defined env self buffer w response hne hparse hdef
  have h1 := dispatch_user_only_user env response (env.kaa_event_handle_sync w id sn ev).2
  have h2 := dispatch_profile_not_user env response (dispatch_user env response
    (env.kaa_event_handle_sync w id sn ev).2).1
  have h3 := dispatch_logging_not_user env response (dispatch_profile env response
    (dispatch_user env response (env.kaa_event_handle_sync w id sn ev).2).1).1
  have hcalls := dispatch_user_calls env response (env.kaa_event_handle_sync w id sn ev).2
  refine ⟨_, hrun, ?_⟩
  simp only [List.filter_cons, is_user_handle, List.filter_append]
  rw [List.filter_eq_self.2 (fun c hc => (h1 c hc).1),
    List.filter_eq_nil_iff.2 (fun c hc => by simp [(h2 c hc).1]),
    List.filter_eq_nil_iff.2 (fun c hc => by simp [(h3 c hc).1])]
  simpa [is_user_handle] using hcalls

/-- The statement of C10 as amended at the response with request id 5, no event section and a
user section that holds an attach response only: the handler is called once, with that
attach response and two null pointers. -/
theorem user_handler_iff_payload_witness :
    extraction_defined ⟨some ⟨BRANCH_0, some 5⟩, none,
      some ⟨BRANCH_0, some ⟨some ⟨BRANCH_0, some 11⟩, none, some ⟨BRANCH_1, none⟩⟩⟩, none, none⟩ ∧
    ∃ r, kaa_platform_protocol_process_server_sync (example_env (0, false) (0, none) none
        (some ⟨some ⟨BRANCH_0, some 5⟩, none,
          some ⟨BRANCH_0, some ⟨some ⟨BRANCH_0, some 11⟩, none, some ⟨BRANCH_1, none⟩⟩⟩,
          none, none⟩)) (some ⟨0⟩) (some [0]) 0 = Outcome.returned r ∧
      ∃ e, r.calls.filter is_user_handle =
        [Call.kaa_user_manager_handle_sync (some 11) none none e] := by
  have hdef : extraction_defined ⟨some ⟨BRANCH_0, some 5⟩, none,
      some ⟨BRANCH_0, some ⟨some ⟨BRANCH_0, some 11⟩, none, some ⟨BRANCH_1, none⟩⟩⟩,
      none, none⟩ := by
    constructor
    · intro u hu _
      simp only [Option.some.injEq] at hu
      subst hu
      simp
    · intro u hu
      simp at hu
  obtain ⟨r, hr, h1, -⟩ := user_handler_iff_payload (example_env (0, false) (0, none) none
    (some ⟨some ⟨BRANCH_0, some 5⟩, none,
      some ⟨BRANCH_0, some ⟨some ⟨BRANCH_0, some 11⟩, none, some ⟨BRANCH_1, none⟩⟩⟩,
      none, none⟩)) ⟨0⟩ [0] 0 _ (by decide) rfl hdef
  exact ⟨hdef, r, hr, h1 _ _ rfl rfl rfl⟩

/-! ## The parameter checks and the buffer -/

/-- C14: both public operations reject null and zero-length arguments with `BadParameter` and
then have no effect. `kaa_platform_protocol_serialize_client_sync` called with a null protocol,
a null feature list, a feature count of 0 or a null allocator returns `KAA_ERR_BADPARAM`,
leaves the protocol object (its request counter) and the world unchanged and makes no external
call, so that no feature manager and no allocator is invoked;
`kaa_platform_protocol_process_server_sync` called with a null protocol, a null buffer or a
buffer size of 0 returns `KAA_ERR_BADPARAM`, leaves everything unchanged and makes no external
call, so that no feature manager and no status-persist is invoked. -/
theorem bad_parameters_rejected {σ : Type} (env : Collaborators σ) (w : σ)
    (self : Option kaa_platform_protocol_t) :
    (∀ (services : Option (List kaa_service_t)) (allocator : Option (kaa_buffer_alloc_fn σ)),
      self = none ∨ services = none ∨ services = some [] ∨ allocator = none →
      (kaa_platform_protocol_serialize_client_sync env self services allocator w).error =
        KAA_ERR_BADPARAM ∧
      (kaa_platform_protocol_serialize_client_sync env self services allocator w).self = self ∧
      (kaa_platform_protocol_serialize_client_sync env self services allocator w).world = w ∧
      (kaa_platform_protocol_serialize_client_sync env self services allocator w).calls = []) ∧
    (∀ buffer : Option (List Nat),
      self = none ∨ buffer = none ∨ buffer = some [] →
      kaa_platform_protocol_process_server_sync env self buffer w =
        Outcome.returned ⟨KAA_ERR_BADPARAM, self, w, []⟩) := by
  constructor
  · intro services allocator h
    cases self with
    | none => simp [kaa_platform_protocol_serialize_client_sync]
    | some p =>
      cases services with
      | none => simp [kaa_platform_protocol_serialize_client_sync]
      | some l =>
        cases allocator with
        | none => simp [kaa_platform_protocol_serialize_client_sync]
        | some a =>
          have hl : l = [] := by simpa using h
          subst hl
          simp [kaa_platform_protocol_serialize_client_sync]
  · intro buffer h
    cases self with
    | none => simp [kaa_platform_protocol_process_server_sync]
    | some p =>
      cases buffer with
      | none => simp [kaa_platform_protocol_process_server_sync]
      | some l =>
        have hl : l = [] := by simpa using h
        subst hl
        simp [kaa_platform_protocol_process_server_sync]

/-- C16: unrecognized feature tags are silently ignored. For every feature list and every
behaviour of the collaborators, `kaa_compile_request` on the list and on the list with every
tag other than event, profile and logging removed are equal in everything: the value
returned, the envelope output with its size, the world the collaborators are left in and the
external calls made, in order. Provided a tag remains, the same holds of
`kaa_platform_protocol_serialize_client_sync`. -/
theorem unrecognised_tags_ignored {σ : Type} (env : Collaborators σ)
    (self : kaa_platform_protocol_t) (services : List kaa_service_t) (w : σ) :
    kaa_compile_request env self (services.filter is_recognised) w =
      kaa_compile_request env self services w ∧
    ∀ allocator : kaa_buffer_alloc_fn σ, services.filter is_recognised ≠ [] →
      kaa_platform_protocol_serialize_client_sync env (some self)
        (some (services.filter is_recognised)) (some allocator) w =
      kaa_platform_protocol_serialize_client_sync env (some self) (some services)
        (some allocator) w := by
  have hloop : ∀ (rid : Nat) (l : List kaa_service_t) (request : kaa_sync_request_t) (v : σ),
      compile_services env rid (l.filter is_recognised) request v =
        compile_services env rid l request v := by
    intro rid l
    induction l with
    | nil => intro request v; rfl
    | cons s rest ih =>
      intro request v
      cases s with
      | KAA_SERVICE_EVENT =>
        simp only [List.filter_cons, is_recognised, if_true, compile_services, ih]
      | KAA_SERVICE_PROFILE =>
        simp only [List.filter_cons, is_recognised, if_true, compile_services, ih]
      | KAA_SERVICE_LOGGING =>
        simp only [List.filter_cons, is_recognised, if_true, compile_services, ih]
      | other t =>
        simp only [List.filter_cons, is_recognised, compile_services, Bool.false_eq_true,
          if_false, ih]
  have hcompile : ∀ p : kaa_platform_protocol_t,
      kaa_compile_request env p (services.filter is_recognised) w =
        kaa_compile_request env p services w := by
    intro p
    simp only [kaa_compile_request, ← List.filter_reverse, hloop]
  refine ⟨hcompile self, ?_⟩
  intro allocator hne
  have hne1 : services ≠ [] := by
    intro h
    rw [h] at hne
    exact hne rfl
  have h1 : (services.filter is_recognised).length ≠ 0 := by simpa using hne
  have h2 : services.length ≠ 0 := by simpa using hne1
  simp only [kaa_platform_protocol_serialize_client_sync, h1, h2, if_false, hcompile]

/-- The statement of C14 at a non-null protocol object with counter 3 and a feature count
of 0, and at a null buffer. -/
theorem bad_parameters_rejected_witness :
    ((kaa_platform_protocol_serialize_client_sync (example_env (0, false) (0, none) none none)
        (some ⟨3⟩) (some []) (some example_allocator) 0).error = KAA_ERR_BADPARAM ∧
      (kaa_platform_protocol_serialize_client_sync (example_env (0, false) (0, none) none none)
        (some ⟨3⟩) (some []) (some example_allocator) 0).self = some ⟨3⟩ ∧
      (kaa_platform_protocol_serialize_client_sync (example_env (0, false) (0, none) none none)
        (some ⟨3⟩) (some []) (some example_allocator) 0).world = 0 ∧
      (kaa_platform_protocol_serialize_client_sync (example_env (0, false) (0, none) none none)
        (some ⟨3⟩) (some []) (some example_allocator) 0).calls = []) ∧
    kaa_platform_protocol_process_server_sync (example_env (0, false) (0, none) none none)
      (some ⟨3⟩) none 0 = Outcome.returned ⟨KAA_ERR_BADPARAM, some ⟨3⟩, 0, []⟩ :=
  ⟨(bad_parameters_rejected (example_env (0, false) (0, none) none none) 0 (some ⟨3⟩)).1
      (some []) (some example_allocator) (Or.inr (Or.inr (Or.inl rfl))),
    (bad_parameters_rejected (example_env (0, false) (0, none) none none) 0 (some ⟨3⟩)).2
      none (Or.inr (Or.inl rfl))⟩

/-- The statement of C16 at the feature list (4, event, 9): it compiles, and serializes, as
the list (event) does. -/
theorem unrecognised_tags_ignored_witness :
    [other 4, KAA_SERVICE_EVENT, other 9].filter is_recognised = [KAA_SERVICE_EVENT] ∧
    kaa_compile_request (example_env (0, false) (0, none) none none) ⟨1⟩
        ([other 4, KAA_SERVICE_EVENT, other 9].filter is_recognised) 0 =
      kaa_compile_request (example_env (0, false) (0, none) none none) ⟨1⟩
        [other 4, KAA_SERVICE_EVENT, other 9] 0 ∧
    kaa_platform_protocol_serialize_client_sync (example_env (0, false) (0, none) none none)
        (some ⟨1⟩) (some ([other 4, KAA_SERVICE_EVENT, other 9].filter is_recognised))
        (some example_allocator) 0 =
      kaa_platform_protocol_serialize_client_sync (example_env (0, false) (0, none) none none)
        (some ⟨1⟩) (some [other 4, KAA_SERVICE_EVENT, other 9]) (some example_allocator) 0 :=
  ⟨by decide,
    (unrecognised_tags_ignored (example_env (0, false) (0, none) none none) ⟨1⟩
      [other 4, KAA_SERVICE_EVENT, other 9] 0).1,
    (unrecognised_tags_ignored (example_env (0, false) (0, none) none none) ⟨1⟩
      [other 4, KAA_SERVICE_EVENT, other 9] 0).2 example_allocator (by decide)⟩

theorem kaa_compile_request_size {σ : Type} (env : Collaborators σ)
    (self : kaa_platform_protocol_t) (services : List kaa_service_t) (w : σ)
    (h : (kaa_compile_request env self services w).error = KAA_ERR_NONE) :
    ∃ request, (kaa_compile_request env self services w).request_p = some request ∧
      (kaa_compile_request env self services w).result_size = env.get_size request := by
  have hc := kaa_compile_request_ok_created env self services w h
  simp only [kaa_compile_request, hc, if_true] at h ⊢
  exact (compile_services_request_p env _ _ _ _).2 h

/-- C15: for every valid call of `kaa_platform_protocol_serialize_client_sync` whose compile
step succeeds, the buffer allocator is called exactly once, with exactly the size the
compiled envelope reports through `get_size`. If it returns no buffer the call returns
`KAA_ERR_WRITE_FAILED` and the serializer is not called; otherwise the serializer is called
once, after the allocator, with the compiled envelope, that buffer and that same size, and
the call returns success. In both cases the request counter has advanced by one (as a
`uint32_t`). -/
theorem buffer_sized_by_envelope {σ : Type} (env : Collaborators σ)
    (self : kaa_platform_protocol_t) (services : List kaa_service_t)
    (allocator : kaa_buffer_alloc_fn σ) (w : σ) (hne : services ≠ [])
    (hok : (kaa_compile_request env ⟨(self.request_id + 1) % 2 ^ 32⟩ services w).error =
      KAA_ERR_NONE) :
    ∃ request,
      (kaa_compile_request env ⟨(self.request_id + 1) % 2 ^ 32⟩ services w).request_p =
        some request ∧
      (kaa_platform_protocol_serialize_client_sync env (some self) (some services)
        (some allocator) w).self = some ⟨(self.request_id + 1) % 2 ^ 32⟩ ∧
      ((allocator (kaa_compile_request env ⟨(self.request_id + 1) % 2 ^ 32⟩ services w).world
          (env.get_size request)).1 = none →
        (kaa_platform_protocol_serialize_client_sync env (some self) (some services)
          (some allocator) w).error = KAA_ERR_WRITE_FAILED ∧
        (kaa_platform_protocol_serialize_client_sync env (some self) (some services)
          (some allocator) w).calls.filter is_output_call =
          [Call.allocator (env.get_size request) none]) ∧
      (∀ buffer, (allocator
          (kaa_compile_request env ⟨(self.request_id + 1) % 2 ^ 32⟩ services w).world
          (env.get_size request)).1 = some buffer →
        (kaa_platform_protocol_serialize_client_sync env (some self) (some services)
          (some allocator) w).error = KAA_ERR_NONE ∧
        (kaa_platform_protocol_serialize_client_sync env (some self) (some services)
          (some allocator) w).calls.filter is_output_call =
          [Call.allocator (env.get_size request) (some buffer),
           Call.serialize request buffer (env.get_size request)]) := by
  have hlen : services.length ≠ 0 := by
    simpa using hne
  have hok0 : (kaa_compile_request env ⟨(self.request_id + 1) % 2 ^ 32⟩ services w).error = 0 :=
    hok
  obtain ⟨request, hreq, hsize⟩ :=
    kaa_compile_request_size env ⟨(self.request_id + 1) % 2 ^ 32⟩ services w hok
  have hnone : List.filter is_output_call
      (kaa_compile_request env ⟨(self.request_id + 1) % 2 ^ 32⟩ services w).calls = [] := by
    rw [List.filter_eq_nil_iff]
    intro c hc
    simp [kaa_compile_request_no_output env _ services w c hc]
  refine ⟨request, hreq, ?_, ?_, ?_⟩
  · simp only [kaa_platform_protocol_serialize_client_sync, hlen, if_false, hok0, if_true]
    split <;> rfl
  · intro hb
    rw [← hsize] at hb
    simp only [kaa_platform_protocol_serialize_client_sync, hlen, if_false, hok0, if_true, hb,
      List.filter_append, hnone, ← hsize]
    simp [is_output_call]
  · intro buffer hb
    rw [← hsize] at hb
    simp only [kaa_platform_protocol_serialize_client_sync, hlen, if_false, hok0, if_true, hb,
      hreq, kaa_serialize_request, List.filter_append, hnone, ← hsize]
    simp [is_output_call]

/-- The statement of C15 at the feature list (event) with an allocator that has no buffer:
the call returns `KAA_ERR_WRITE_FAILED`, the allocator was asked once for the 64 bytes the
envelope reports, and the counter went from 6 to 7. -/
theorem buffer_sized_by_envelope_witness :
    (kaa_compile_request (example_env (0, false) (0, none) none none) ⟨(6 + 1) % 2 ^ 32⟩
      [KAA_SERVICE_EVENT] 0).error = KAA_ERR_NONE ∧
    (kaa_platform_protocol_serialize_client_sync (example_env (0, false) (0, none) none none)
      (some ⟨6⟩) (some [KAA_SERVICE_EVENT]) (some failing_allocator) 0).error =
      KAA_ERR_WRITE_FAILED ∧
    (kaa_platform_protocol_serialize_client_sync (example_env (0, false) (0, none) none none)
      (some ⟨6⟩) (some [KAA_SERVICE_EVENT]) (some failing_allocator) 0).calls.filter
      is_output_call = [Call.allocator 64 none] ∧
    ∃ request,
      (kaa_compile_request (example_env (0, false) (0, none) none none) ⟨(6 + 1) % 2 ^ 32⟩
        [KAA_SERVICE_EVENT] 0).request_p = some request ∧
      (kaa_platform_protocol_serialize_client_sync (example_env (0, false) (0, none) none none)
        (some ⟨6⟩) (some [KAA_SERVICE_EVENT]) (some failing_allocator) 0).self =
        some ⟨(6 + 1) % 2 ^ 32⟩ := by
  obtain ⟨request, h1, h2, -, -⟩ :=
    buffer_sized_by_envelope (example_env (0, false) (0, none) none none) ⟨6⟩
      [KAA_SERVICE_EVENT] failing_allocator 0 (by decide) (by decide)
  exact ⟨by decide, by decide, by decide, request, h1, h2⟩

/-! ## The request counter at its upper end -/

/-- C18 (as stated, refuted): on a protocol object whose counter stands at `2^32 - 2`, two
valid calls in a row use the request ids `4294967295` and then `0`: the second call's
request id is not greater than the first call's, the `uint32_t` counter having wrapped. -/
theorem request_id_wraps_to_zero :
    (client_syncs (example_env (0, false) (0, none) none none)
      [([KAA_SERVICE_EVENT], example_allocator), ([KAA_SERVICE_EVENT], example_allocator)]
      ⟨4294967294⟩ 0).map (fun r => (r.self, r.calls.filter is_user_compile)) =
      [(some ⟨4294967295⟩, [Call.kaa_user_compile_request 4294967295 0 none]),
       (some ⟨0⟩, [Call.kaa_user_compile_request 0 0 none])] ∧
    ¬ (4294967295 < 0) := by
  decide

/-- C18 (amended): for every state of the request counter and every run of valid calls of
`kaa_platform_protocol_serialize_client_sync` that does not take the counter past `2^32 - 1`,
the request id a call uses is strictly greater than the counter before the run and than the
request id every earlier call of the run used; from the counter `2^32 - 1` the increment
wraps and the next valid call uses the request id `0`. -/
theorem request_ids_increase_until_wrap {σ : Type} (env : Collaborators σ)
    (syncs : List (List kaa_service_t × kaa_buffer_alloc_fn σ)) (self : kaa_platform_protocol_t)
    (w : σ) (hvalid : ∀ s ∈ syncs, s.1 ≠ []) :
    (self.request_id + syncs.length < 2 ^ 32 →
      ∀ (i j : Nat) (ri rj : SyncResult σ), i < j →
        (client_syncs env syncs self w)[i]? = some ri →
        (client_syncs env syncs self w)[j]? = some rj →
        ∃ a b, ri.self = some ⟨a⟩ ∧ rj.self = some ⟨b⟩ ∧ self.request_id < a ∧ a < b ∧
          (∀ c ∈ ri.calls, uses_request_id a c) ∧ (∀ c ∈ rj.calls, uses_request_id b c)) ∧
    (self.request_id = 2 ^ 32 - 1 →
      ∀ r : SyncResult σ, (client_syncs env syncs self w)[0]? = some r →
        r.self = some ⟨0⟩ ∧ ∀ c ∈ r.calls, uses_request_id 0 c) := by
  constructor
  · intro hN i j ri rj hij hi hj
    obtain ⟨h1, h2, -⟩ := client_syncs_request_ids env syncs self w hN hvalid i ri hi
    obtain ⟨h3, h4, -⟩ := client_syncs_request_ids env syncs self w hN hvalid j rj hj
    exact ⟨_, _, h1, h3, by omega, by omega, h2, h4⟩
  · intro hmax r hr
    cases syncs with
    | nil => simp [client_syncs] at hr
    | cons s rest =>
      obtain ⟨services, allocator⟩ := s
      simp only [client_syncs, List.getElem?_cons_zero, Option.some.injEq] at hr
      subst hr
      have hne : services ≠ [] := hvalid (services, allocator) (List.mem_cons_self _ _)
      obtain ⟨h1, h2, -⟩ := serialize_client_sync_uses_request_id env self services allocator w hne
      have hz : (self.request_id + 1) % 2 ^ 32 = 0 := by
        rw [hmax]
        decide
      rw [hz] at h1 h2
      exact ⟨h1, h2⟩

/-- The statement of C18 as amended at two valid calls from the counter 41: they use the
request ids 42 and 43. -/
theorem request_ids_increase_until_wrap_witness :
    (∀ s ∈ [([KAA_SERVICE_EVENT], example_allocator), ([KAA_SERVICE_LOGGING], failing_allocator)],
      s.1 ≠ []) ∧
    (client_syncs (example_env (0, false) (0, none) none none)
      [([KAA_SERVICE_EVENT], example_allocator), ([KAA_SERVICE_LOGGING], failing_allocator)]
      ⟨41⟩ 0).map (fun r => r.self) = [some ⟨42⟩, some ⟨43⟩] ∧
    ∀ ri rj : SyncResult Nat, (client_syncs (example_env (0, false) (0, none) none none)
        [([KAA_SERVICE_EVENT], example_allocator), ([KAA_SERVICE_LOGGING], failing_allocator)]
        ⟨41⟩ 0)[0]? = some ri →
      (client_syncs (example_env (0, false) (0, none) none none)
        [([KAA_SERVICE_EVENT], example_allocator), ([KAA_SERVICE_LOGGING], failing_allocator)]
        ⟨41⟩ 0)[1]? = some rj →
      ∃ a b, ri.self = some ⟨a⟩ ∧ rj.self = some ⟨b⟩ ∧ 41 < a ∧ a < b ∧
        (∀ c ∈ ri.calls, uses_request_id a c) ∧ (∀ c ∈ rj.calls, uses_request_id b c) :=
  ⟨by simp, by decide, fun ri rj =>
    (request_ids_increase_until_wrap (example_env (0, false) (0, none) none none)
      [([KAA_SERVICE_EVENT], example_allocator), ([KAA_SERVICE_LOGGING], failing_allocator)]
      ⟨41⟩ 0 (by simp)).1 (by decide) 0 1 ri rj (by decide)⟩

/-! ## The extraction of the event parts -/

/-- C19 (the code departs from the claim): the extraction of the event parts reads through a
null pointer exactly when the event section is tagged Present (branch 0) and its payload
pointer is null. Line 255 asks `ev_response != NULL` before reading the event list, line 258
reads `ev_response->event_sequence_number_response` without asking, so in that state the
sequence-number acknowledgement is not taken as null: the read is undefined. -/
theorem event_parts_null_dereference_iff (response : kaa_sync_response_t) :
    event_parts response = Outcome.null_dereference ↔
      ∃ u, response.event_sync_response = some u ∧ u.type = BRANCH_0 ∧ u.data = none := by
  unfold event_parts
  cases hr : response.event_sync_response with
  | none => simp
  | some u =>
    obtain ⟨t, d⟩ := u
    by_cases ht : t = BRANCH_0
    · cases d with
      | none => simp [ht]
      | some ev =>
        cases hn : ev.event_sequence_number_response <;> simp [ht, hn]
    · simp [ht]

/-! ## The dispatch of a parsed response -/

theorem dispatch_user_shape {σ : Type} (env : Collaborators σ) (response : kaa_sync_response_t)
    (w : σ) :
    (dispatch_user env response w).2 = [] ∨
    ∃ a b c e, (dispatch_user env response w).2 = [Call.kaa_user_manager_handle_sync a b c e] := by
  unfold dispatch_user
  cases response.user_sync_response with
  | none => exact Or.inl rfl
  | some u =>
    obtain ⟨t, d⟩ := u
    by_cases ht : t = BRANCH_0
    · cases d with
      | none => simp [ht]
      | some usr =>
        simp only [ht, if_true]
        exact Or.inr ⟨_, _, _, _, rfl⟩
    · simp [ht]

theorem dispatch_profile_calls {σ : Type} (env : Collaborators σ)
    (response : kaa_sync_response_t) (w : σ) :
    (∀ u, response.profile_sync_response = some u → u.type = BRANCH_0 →
      (dispatch_profile env response w).2 =
        [Call.kaa_profile_handle_sync u.data (env.kaa_profile_handle_sync w u.data).1]) ∧
    ((¬ ∃ u, response.profile_sync_response = some u ∧ u.type = BRANCH_0) →
      (dispatch_profile env response w).2 = []) := by
  unfold dispatch_profile
  cases hr : response.profile_sync_response with
  | none => simp
  | some u =>
    by_cases ht : u.type = BRANCH_0
    · simp [ht]
    · simp [ht]

theorem dispatch_logging_calls {σ : Type} (env : Collaborators σ)
    (response : kaa_sync_response_t) (w : σ) :
    (∀ u, response.log_sync_response = some u → u.type = BRANCH_0 →
      (dispatch_logging env response w).2 =
        [Call.kaa_logging_handle_sync u.data (env.kaa_logging_handle_sync w u.data).1]) ∧
    ((¬ ∃ u, response.log_sync_response = some u ∧ u.type = BRANCH_0) →
      (dispatch_logging env response w).2 = []) := by
  unfold dispatch_logging
  cases hr : response.log_sync_response with
  | none => simp
  | some u =>
    by_cases ht : u.type = BRANCH_0
    · simp [ht]
    · simp [ht]

theorem dispatch_profile_shape {σ : Type} (env : Collaborators σ)
    (response : kaa_sync_response_t) (w : σ) :
    (dispatch_profile env response w).2 = [] ∨
    ∃ a e, (dispatch_profile env response w).2 = [Call.kaa_profile_handle_sync a e] := by
  by_cases h : ∃ u, response.profile_sync_response = some u ∧ u.type = BRANCH_0
  · obtain ⟨u, h1, h2⟩ := h
    exact Or.inr ⟨_, _, (dispatch_profile_calls env response w).1 u h1 h2⟩
  · exact Or.inl ((dispatch_profile_calls env response w).2 h)

theorem dispatch_logging_shape {σ : Type} (env : Collaborators σ)
    (response : kaa_sync_response_t) (w : σ) :
    (dispatch_logging env response w).2 = [] ∨
    ∃ a e, (dispatch_logging env response w).2 = [Call.kaa_logging_handle_sync a e] := by
  by_cases h : ∃ u, response.log_sync_response = some u ∧ u.type = BRANCH_0
  · obtain ⟨u, h1, h2⟩ := h
    exact Or.inr ⟨_, _, (dispatch_logging_calls env response w).1 u h1 h2⟩
  · exact Or.inl ((dispatch_logging_calls env response w).2 h)

theorem process_server_sync_event_fault {σ : Type} (env : Collaborators σ)
    (self : kaa_platform_protocol_t) (buffer : List Nat) (w : σ)
    (response : kaa_sync_response_t) (hne : buffer ≠ [])
    (hparse : env.kaa_sync_response_deserialize buffer = some response)
    (hevent : ∃ u, response.event_sync_response = some u ∧ u.type = BRANCH_0 ∧ u.data = none) :
    kaa_platform_protocol_process_server_sync env (some self) (some buffer) w =
      Outcome.null_dereference := by
  have hlen : buffer.length ≠ 0 := by
    simpa using hne
  have hparts : event_parts response = Outcome.null_dereference := by
    obtain ⟨u, h1, h2, h3⟩ := hevent
    obtain ⟨t, d⟩ := u
    simp only at h2 h3
    subst h2 h3
    simp [event_parts, h1]
  simp only [kaa_platform_protocol_process_server_sync, hlen, if_false, hparse, hparts]
  cases responseId response <;> rfl

/-- C11 (the code departs from the claim): when the event section of a parsed response is
tagged Present (branch 0) with a null payload, the function reads through the null payload on
line 258 before it reaches the profile and logging sections, so neither handler is called
even when its section is Present. On every parsed response where the extraction of the
request id and of the event parts is defined, the claim holds: the profile manager's handler
is called exactly once, with the nested content, if the profile section is tagged branch 0
and not at all otherwise, and likewise the logging manager's handler for the logging
section. -/
theorem profile_logging_handlers {σ : Type} (env : Collaborators σ)
    (self : kaa_platform_protocol_t) (buffer : List Nat) (w : σ)
    (response : kaa_sync_response_t) (hne : buffer ≠ [])
    (hparse : env.kaa_sync_response_deserialize buffer = some response) :
    ((∃ u, response.event_sync_response = some u ∧ u.type = BRANCH_0 ∧ u.data = none) →
      kaa_platform_protocol_process_server_sync env (some self) (some buffer) w =
        Outcome.null_dereference) ∧
    (extraction_defined response →
      ∃ r, kaa_platform_protocol_process_server_sync env (some self) (some buffer) w =
          Outcome.returned r ∧
        (∀ u, response.profile_sync_response = some u → u.type = BRANCH_0 →
          ∃ e, r.calls.filter is_profile_handle = [Call.kaa_profile_handle_sync u.data e]) ∧
        ((¬ ∃ u, response.profile_sync_response = some u ∧ u.type = BRANCH_0) →
          r.calls.filter is_profile_handle = []) ∧
        (∀ u, response.log_sync_response = some u → u.type = BRANCH_0 →
          ∃ e, r.calls.filter is_logging_handle = [Call.kaa_logging_handle_sync u.data e]) ∧
        ((¬ ∃ u, response.log_sync_response = some u ∧ u.type = BRANCH_0) →
          r.calls.filter is_logging_handle = [])) := by
  refine ⟨process_server_sync_event_fault env self buffer w response hne hparse, ?_⟩
  intro hdef
  obtain ⟨id, ev, sn, -, -, hrun⟩ :=
    process_server_sync_defined env self buffer w response hne hparse hdef
  refine ⟨_, hrun, ?_⟩
  have hu := dispatch_user_shape env response (env.kaa_event_handle_sync w id sn ev).2
  have hp := dispatch_profile_calls env response (dispatch_user env response
    (env.kaa_event_handle_sync w id sn ev).2).1
  have hps := dispatch_profile_shape env response (dispatch_user env response
    (env.kaa_event_handle_sync w id sn ev).2).1
  have hl := dispatch_logging_calls env response (dispatch_profile env response
    (dispatch_user env response (env.kaa_event_handle_sync w id sn ev).2).1).1
  have hls := dispatch_logging_shape env response (dispatch_profile env response
    (dispatch_user env response (env.kaa_event_handle_sync w id sn ev).2).1).1
  refine ⟨fun u h1 h2 => ?_, fun h => ?_, fun u h1 h2 => ?_, fun h => ?_⟩
  · simp only [hp.1 u h1 h2]
    rcases hu with hu | ⟨a, b, c, e, hu⟩ <;> rcases hls with hls | ⟨a1, e1, hls⟩ <;>
      simp [hu, hls, is_profile_handle]
  · simp only [hp.2 h]
    rcases hu with hu | ⟨a, b, c, e, hu⟩ <;> rcases hls with hls | ⟨a1, e1, hls⟩ <;>
      simp [hu, hls, is_profile_handle]
  · simp only [hl.1 u h1 h2]
    rcases hu with hu | ⟨a, b, c, e, hu⟩ <;> rcases hps with hps | ⟨a1, e1, hps⟩ <;>
      simp [hu, hps, is_logging_handle]
  · simp only [hl.2 h]
    rcases hu with hu | ⟨a, b, c, e, hu⟩ <;> rcases hps with hps | ⟨a1, e1, hps⟩ <;>
      simp [hu, hps, is_logging_handle]

/-- The statement of C11 at the response with request id 5, an event section tagged Present
with a null payload and Present profile and logging sections: the function does not get
to the profile and logging handlers. -/
theorem profile_logging_handlers_witness :
    [0] ≠ ([] : List Nat) ∧
    (example_env (0, false) (0, none) none
      (some ⟨some ⟨BRANCH_0, some 5⟩, some ⟨BRANCH_0, none⟩, none, some ⟨BRANCH_0, some 8⟩,
        some ⟨BRANCH_0, some 9⟩⟩)).kaa_sync_response_deserialize [0] =
      some ⟨some ⟨BRANCH_0, some 5⟩, some ⟨BRANCH_0, none⟩, none, some ⟨BRANCH_0, some 8⟩,
        some ⟨BRANCH_0, some 9⟩⟩ ∧
    kaa_platform_protocol_process_server_sync (example_env (0, false) (0, none) none
      (some ⟨some ⟨BRANCH_0, some 5⟩, some ⟨BRANCH_0, none⟩, none, some ⟨BRANCH_0, some 8⟩,
        some ⟨BRANCH_0, some 9⟩⟩)) (some ⟨0⟩) (some [0]) 0 = Outcome.null_dereference :=
  ⟨by decide, rfl,
    (profile_logging_handlers _ ⟨0⟩ [0] 0 _ (by decide) rfl).1 ⟨_, rfl, rfl, rfl⟩⟩

/-- C12 (the code departs from the claim): when the event section of a parsed response is
tagged Present (branch 0) with a null payload, the function reads through the null payload on
line 258 and reaches neither a handler nor the status-persist operation, so the trace holds
no status-persist call. On every parsed response where the extraction of the request id and
of the event parts is defined, the claim holds, whatever the handlers return: the calls made
are handler calls in the order Event, User, Profile, Logging, each handler at most once,
followed by exactly one status-persist call, which is the last call. -/
theorem dispatch_order_and_persist {σ : Type} (env : Collaborators σ)
    (self : kaa_platform_protocol_t) (buffer : List Nat) (w : σ)
    (response : kaa_sync_response_t) (hne : buffer ≠ [])
    (hparse : env.kaa_sync_response_deserialize buffer = some response) :
    ((∃ u, response.event_sync_response = some u ∧ u.type = BRANCH_0 ∧ u.data = none) →
      kaa_platform_protocol_process_server_sync env (some self) (some buffer) w =
        Outcome.null_dereference) ∧
    (extraction_defined response →
      ∃ r handlers e, kaa_platform_protocol_process_server_sync env (some self) (some buffer) w =
          Outcome.returned r ∧
        r.calls = handlers ++ [Call.kaa_status_save e] ∧
        (∀ c ∈ handlers, 1 ≤ dispatch_rank c ∧ dispatch_rank c ≤ 4) ∧
        (handlers.map dispatch_rank).Pairwise (fun a b => a < b) ∧
        r.calls.filter is_status_save = [Call.kaa_status_save e]) := by
  refine ⟨process_server_sync_event_fault env self buffer w response hne hparse, ?_⟩
  intro hdef
  obtain ⟨id, ev, sn, -, -, hrun⟩ :=
    process_server_sync_defined env self buffer w response hne hparse hdef
  have hu := dispatch_user_shape env response (env.kaa_event_handle_sync w id sn ev).2
  have hp := dispatch_profile_shape env response (dispatch_user env response
    (env.kaa_event_handle_sync w id sn ev).2).1
  have hl := dispatch_logging_shape env response (dispatch_profile env response
    (dispatch_user env response (env.kaa_event_handle_sync w id sn ev).2).1).1
  refine ⟨_, Call.kaa_event_handle_sync id sn ev (env.kaa_event_handle_sync w id sn ev).1 ::
      ((dispatch_user env response (env.kaa_event_handle_sync w id sn ev).2).2 ++
        (dispatch_profile env response (dispatch_user env response
          (env.kaa_event_handle_sync w id sn ev).2).1).2 ++
        (dispatch_logging env response (dispatch_profile env response
          (dispatch_user env response (env.kaa_event_handle_sync w id sn ev).2).1).1).2),
    _, hrun, rfl, ?_, ?_, ?_⟩
  · rcases hu with hu | ⟨a, b, c, e, hu⟩ <;> rcases hp with hp | ⟨a1, e1, hp⟩ <;>
      rcases hl with hl | ⟨a2, e2, hl⟩ <;> simp [hu, hp, hl, dispatch_rank]
  · rcases hu with hu | ⟨a, b, c, e, hu⟩ <;> rcases hp with hp | ⟨a1, e1, hp⟩ <;>
      rcases hl with hl | ⟨a2, e2, hl⟩ <;> simp [hu, hp, hl, dispatch_rank]
  · rcases hu with hu | ⟨a, b, c, e, hu⟩ <;> rcases hp with hp | ⟨a1, e1, hp⟩ <;>
      rcases hl with hl | ⟨a2, e2, hl⟩ <;> simp [hu, hp, hl, is_status_save]

/-- The statement of C12 at the response with request id 5 and an event section tagged
Present with a null payload: no call is made, and so no status-persist call. -/
theorem dispatch_order_and_persist_witness :
    [0] ≠ ([] : List Nat) ∧
    (example_env (0, false) (0, none) none
      (some ⟨some ⟨BRANCH_0, some 5⟩, some ⟨BRANCH_0, none⟩, some ⟨BRANCH_1, none⟩, none,
        none⟩)).kaa_sync_response_deserialize [0] =
      some ⟨some ⟨BRANCH_0, some 5⟩, some ⟨BRANCH_0, none⟩, some ⟨BRANCH_1, none⟩, none, none⟩ ∧
    kaa_platform_protocol_process_server_sync (example_env (0, false) (0, none) none
      (some ⟨some ⟨BRANCH_0, some 5⟩, some ⟨BRANCH_0, none⟩, some ⟨BRANCH_1, none⟩, none,
        none⟩)) (some ⟨0⟩) (some [0]) 0 = Outcome.null_dereference :=
  ⟨by decide, rfl,
    (dispatch_order_and_persist _ ⟨0⟩ [0] 0 _ (by decide) rfl).1 ⟨_, rfl, rfl, rfl⟩⟩

/-- C13 (as stated, refuted): on the response with request id 5 in which all four sections
are Present, with handlers that all return the error `-7` and a status-persist operation
that returns `-9`, the function makes the five calls and returns `KAA_ERR_NONE`. -/
theorem handler_errors_not_returned :
    ∃ r, kaa_platform_protocol_process_server_sync (failing_handlers_env
        (some ⟨some ⟨BRANCH_0, some 5⟩, some ⟨BRANCH_0, some ⟨none, none⟩⟩,
          some ⟨BRANCH_0, some ⟨none, none, none⟩⟩, some ⟨BRANCH_0, some 8⟩,
          some ⟨BRANCH_0, some 9⟩⟩)) (some ⟨0⟩) (some [0]) 0 = Outcome.returned r ∧
      r.calls.map dispatch_error = [some (-7), some (-7), some (-7), some (-7), some (-9)] ∧
      r.error = KAA_ERR_NONE :=
  ⟨_, rfl, by decide, by decide⟩

/-- C13 (amended): the values the event, user, profile and logging handlers and the
status-persist operation return are dropped. For every parsed response on which the
extraction of the request id and of the event parts is defined,
`kaa_platform_protocol_process_server_sync` returns `KAA_ERR_NONE` after the status-persist
call, whatever those calls returned; and whenever the function returns at all, the value it
returns is `KAA_ERR_NONE` or the `KAA_ERR_BADPARAM` of its parameter check. -/
theorem handler_errors_dropped {σ : Type} (env : Collaborators σ)
    (self : kaa_platform_protocol_t) (buffer : List Nat) (w : σ)
    (response : kaa_sync_response_t) (hne : buffer ≠ [])
    (hparse : env.kaa_sync_response_deserialize buffer = some response)
    (hdef : extraction_defined response) :
    (∃ r e, kaa_platform_protocol_process_server_sync env (some self) (some buffer) w =
        Outcome.returned r ∧
      r.calls.getLast? = some (Call.kaa_status_save e) ∧ r.error = KAA_ERR_NONE) ∧
    (∀ (p : Option kaa_platform_protocol_t) (b : Option (List Nat)) (v : σ) (r : SyncResult σ),
      kaa_platform_protocol_process_server_sync env p b v = Outcome.returned r →
      r.error = KAA_ERR_NONE ∨ r.error = KAA_ERR_BADPARAM) := by
  constructor
  · obtain ⟨id, ev, sn, -, -, hrun⟩ :=
      process_server_sync_defined env self buffer w response hne hparse hdef
    refine ⟨_, (env.kaa_status_save (dispatch_logging env response (dispatch_profile env
      response (dispatch_user env response
        (env.kaa_event_handle_sync w id sn ev).2).1).1).1).1, hrun, ?_, rfl⟩
    simp only [← List.cons_append]
    rw [List.getLast?_append]
    rfl
  · intro p b v r hr
    unfold kaa_platform_protocol_process_server_sync at hr
    split at hr
    · split at hr
      · simp only [Outcome.returned.injEq] at hr
        subst hr
        exact Or.inr rfl
      · split at hr
        · exact absurd hr (by simp)
        · split at hr
          · exact absurd hr (by simp)
          · split at hr
            · exact absurd hr (by simp)
            · simp only [Outcome.returned.injEq] at hr
              subst hr
              exact Or.inl rfl
    · simp only [Outcome.returned.injEq] at hr
      subst hr
      exact Or.inr rfl

/-- The statement of C13 as amended at the response with request id 5 and no section, with
handlers and a status-persist operation that fail. -/
theorem handler_errors_dropped_witness :
    [0] ≠ ([] : List Nat) ∧
    extraction_defined ⟨some ⟨BRANCH_0, some 5⟩, none, none, none, none⟩ ∧
    ∃ r e, kaa_platform_protocol_process_server_sync (failing_handlers_env
        (some ⟨some ⟨BRANCH_0, some 5⟩, none, none, none, none⟩)) (some ⟨0⟩) (some [0]) 0 =
        Outcome.returned r ∧
      r.calls.getLast? = some (Call.kaa_status_save e) ∧ r.error = KAA_ERR_NONE := by
  have hdef : extraction_defined ⟨some ⟨BRANCH_0, some 5⟩, none, none, none, none⟩ := by
    constructor
    · intro u hu _
      simp only [Option.some.injEq] at hu
      subst hu
      simp
    · intro u hu
      simp at hu
  exact ⟨by decide, hdef,
    (handler_errors_dropped (failing_handlers_env
      (some ⟨some ⟨BRANCH_0, some 5⟩, none, none, none, none⟩)) ⟨0⟩ [0] 0 _ (by decide) rfl
      hdef).1⟩

/-! ## The metadata -/

theorem create_sync_request_meta_data_spec {σ : Type} (env : Collaborators σ) (w : σ) :
    ∃ k p kh ph,
      (create_sync_request_meta_data env w).2.2 =
        [Call.kaa_status_get_endpoint_public_key_hash k kh,
         Call.kaa_status_get_profile_hash p ph] ∧
      (create_sync_request_meta_data env w).1.application_token = env.APPLICATION_TOKEN ∧
      (create_sync_request_meta_data env w).1.timeout = 60000 ∧
      (create_sync_request_meta_data env w).1.endpoint_public_key_hash =
        kh.map (fun d => kaa_bytes_copy_create d SHA_1_DIGEST_LENGTH) ∧
      (ph = none →
        (create_sync_request_meta_data env w).1.profile_hash = some ⟨BRANCH_1, none⟩) ∧
      (∀ d, ph = some d →
        (create_sync_request_meta_data env w).1.profile_hash =
          some ⟨BRANCH_0, some (kaa_bytes_copy_create d SHA_1_DIGEST_LENGTH)⟩ ∨
        (create_sync_request_meta_data env w).1.profile_hash = none) ∧
      ((∀ s, (env.kaa_union_bytes_or_null_branch_0_create s).1 = true) → ∀ d, ph = some d →
        (create_sync_request_meta_data env w).1.profile_hash =
          some ⟨BRANCH_0, some (kaa_bytes_copy_create d SHA_1_DIGEST_LENGTH)⟩) := by
  refine ⟨(env.kaa_status_get_endpoint_public_key_hash w).1,
    (env.kaa_status_get_profile_hash (env.kaa_status_get_endpoint_public_key_hash w).2.2).1,
    (env.kaa_status_get_endpoint_public_key_hash w).2.1,
    (env.kaa_status_get_profile_hash (env.kaa_status_get_endpoint_public_key_hash w).2.2).2.1,
    ?_⟩
  unfold create_sync_request_meta_data
  simp only
  cases hk : (env.kaa_status_get_endpoint_public_key_hash w).2.1 <;>
    cases hp : (env.kaa_status_get_profile_hash
      (env.kaa_status_get_endpoint_public_key_hash w).2.2).2.1 <;>
    simp only [] <;>
    (try split_ifs with ha) <;>
    first
      | (simp_all [branch_1_create]; done)
      | (simp_all [branch_1_create]; exact ⟨_, ha⟩)

theorem kaa_compile_request_meta_data {σ : Type} (env : Collaborators σ)
    (self : kaa_platform_protocol_t) (services : List kaa_service_t) (w : σ)
    (request : kaa_sync_request_t)
    (h : (kaa_compile_request env self services w).request_p = some request) :
    request.sync_request_meta_data = ⟨BRANCH_0,
      some (create_sync_request_meta_data env (env.kaa_sync_request_create w).2).1⟩ ∧
    ∃ rest, (kaa_compile_request env self services w).calls =
      (create_sync_request_meta_data env (env.kaa_sync_request_create w).2).2.2 ++ rest := by
  have hc := kaa_compile_request_some_created env self services w request h
  simp only [kaa_compile_request, hc, if_true] at h ⊢
  exact ⟨(compile_services_frame env _ _ _ _ request h).2.1, _, rfl⟩

/-- C17 (as stated, refuted): with a status store that supplies a 20-byte profile hash and an
allocation of the profile-hash union that fails (the case line 80 tests for), the compile
succeeds and the metadata's `profile_hash` is a null pointer: neither the Absent nor the
Present branch. -/
theorem profile_hash_left_null :
    (kaa_compile_request (status_env (0, none) (0, some (List.replicate 20 1)) false) ⟨1⟩
      [KAA_SERVICE_EVENT] 0).error = KAA_ERR_NONE ∧
    Call.kaa_status_get_profile_hash 0 (some (List.replicate 20 1)) ∈
      (kaa_compile_request (status_env (0, none) (0, some (List.replicate 20 1)) false) ⟨1⟩
        [KAA_SERVICE_EVENT] 0).calls ∧
    (kaa_compile_request (status_env (0, none) (0, some (List.replicate 20 1)) false) ⟨1⟩
      [KAA_SERVICE_EVENT] 0).request_p.map (fun r => r.sync_request_meta_data) =
      some ⟨BRANCH_0, some ⟨"token", 60000, none, none⟩⟩ := by
  decide

/-- C17 (amended): for every compiled envelope the metadata section is Present with
timeout = 60000 and the application token, built from the two status reads that open the
compile, whatever error codes those reads return. Its `endpoint_public_key_hash` is a copy of
the stored digest exactly when the status store supplies one and is unset otherwise. Its
`profile_hash` is the Absent (null) branch exactly when the status store supplies no profile
hash; when the store supplies one it is the Present branch carrying a copy of the stored
digest provided the allocation of that union succeeds, and a null pointer otherwise. The
copy of a 20-byte digest is that digest. -/
theorem metadata_of_status {σ : Type} (env : Collaborators σ)
    (self : kaa_platform_protocol_t) (services : List kaa_service_t) (w : σ)
    (request : kaa_sync_request_t)
    (h : (kaa_compile_request env self services w).request_p = some request) :
    ∃ m k p kh ph rest,
      request.sync_request_meta_data = ⟨BRANCH_0, some m⟩ ∧
      (kaa_compile_request env self services w).calls =
        Call.kaa_status_get_endpoint_public_key_hash k kh ::
          Call.kaa_status_get_profile_hash p ph :: rest ∧
      m.timeout = 60000 ∧ m.application_token = env.APPLICATION_TOKEN ∧
      m.endpoint_public_key_hash =
        kh.map (fun d => kaa_bytes_copy_create d SHA_1_DIGEST_LENGTH) ∧
      (ph = none → m.profile_hash = some ⟨BRANCH_1, none⟩) ∧
      (∀ d, ph = some d →
        m.profile_hash = some ⟨BRANCH_0, some (kaa_bytes_copy_create d SHA_1_DIGEST_LENGTH)⟩ ∨
        m.profile_hash = none) ∧
      ((∀ s, (env.kaa_union_bytes_or_null_branch_0_create s).1 = true) → ∀ d, ph = some d →
        m.profile_hash =
          some ⟨BRANCH_0, some (kaa_bytes_copy_create d SHA_1_DIGEST_LENGTH)⟩) ∧
      (∀ d : kaa_digest, d.length = SHA_1_DIGEST_LENGTH →
        kaa_bytes_copy_create d SHA_1_DIGEST_LENGTH = ⟨d, SHA_1_DIGEST_LENGTH⟩) := by
  obtain ⟨hm, rest, hcalls⟩ := kaa_compile_request_meta_data env self services w request h
  obtain ⟨k, p, kh, ph, h1, h2, h3, h4, h5, h6, h7⟩ :=
    create_sync_request_meta_data_spec env (env.kaa_sync_request_create w).2
  refine ⟨_, k, p, kh, ph, rest, hm, ?_, h3, h2, h4, h5, h6, h7, ?_⟩
  · rw [hcalls, h1]
    rfl
  · intro d hd
    simp only [kaa_bytes_copy_create, ← hd, List.take_length]

/-- The statement of C17 as amended at a status store that supplies a 20-byte profile hash
and answers both reads with the error `-4`: the metadata carries the Present branch with a
copy of the digest. -/
theorem metadata_of_status_witness :
    (kaa_compile_request (status_env (-4, none) (-4, some (List.replicate 20 1)) true) ⟨1⟩
      [KAA_SERVICE_EVENT] 0).request_p.map (fun r => r.sync_request_meta_data) =
      some ⟨BRANCH_0, some ⟨"token", 60000, none,
        some ⟨BRANCH_0, some ⟨List.replicate 20 1, 20⟩⟩⟩⟩ ∧
    ∀ request, (kaa_compile_request (status_env (-4, none) (-4, some (List.replicate 20 1)) true)
        ⟨1⟩ [KAA_SERVICE_EVENT] 0).request_p = some request →
      ∃ m, request.sync_request_meta_data = ⟨BRANCH_0, some m⟩ ∧ m.timeout = 60000 := by
  refine ⟨by decide, fun request h => ?_⟩
  obtain ⟨m, k, p, kh, ph, rest, h1, -, h3, -⟩ :=
    metadata_of_status (status_env (-4, none) (-4, some (List.replicate 20 1)) true) ⟨1⟩
      [KAA_SERVICE_EVENT] 0 request h
  exact ⟨m, h1, h3⟩

/-! ## The order of the feature list -/

theorem compile_services_outcome {σ : Type} (env : Collaborators σ) (rid : Nat) (w0 : σ)
    (hind : history_independent env) (l : List kaa_service_t) :
    ∀ (request : kaa_sync_request_t) (w : σ) (e p g : Bool),
      (e = true ↔ KAA_SERVICE_EVENT ∈ l) → (p = true ↔ KAA_SERVICE_PROFILE ∈ l) →
      (g = true ↔ KAA_SERVICE_LOGGING ∈ l) →
      ((compile_services env rid l request w).error,
        (compile_services env rid l request w).request_p) =
        loop_outcome env rid w0 e p g request := by
  obtain ⟨hE, hN, hA, hG, hL⟩ := hind
  induction l with
  | nil =>
    intro request w e p g he hp hg
    have he1 : e = false := by simpa using he
    have hp1 : p = false := by simpa using hp
    have hg1 : g = false := by simpa using hg
    subst he1 hp1 hg1
    simp [compile_services, loop_outcome]
  | cons s rest ih =>
    intro request w e p g he hp hg
    cases s with
    | KAA_SERVICE_EVENT =>
      have he1 : e = true := he.2 (List.mem_cons_self _ _)
      subst he1
      simp only [compile_services]
      rw [ih _ _ (decide (KAA_SERVICE_EVENT ∈ rest)) p g (by simp) (by simpa using hp)
        (by simpa using hg), (hE w w0 rid).2]
      cases decide (KAA_SERVICE_EVENT ∈ rest) <;> cases p <;> cases g <;>
        simp [loop_outcome]
    | KAA_SERVICE_PROFILE =>
      have hp1 : p = true := hp.2 (List.mem_cons_self _ _)
      subst hp1
      have h1 := (hN w w0).1
      have h2 := (hN w w0).2
      have h3 := hA (env.kaa_profile_need_profile_resync w).2.2 w0
      have h4 := (hG (env.kaa_union_profile_sync_request_or_null_branch_0_create
        (env.kaa_profile_need_profile_resync w).2.2).2 w0).1
      have h5 := (hG (env.kaa_union_profile_sync_request_or_null_branch_0_create
        (env.kaa_profile_need_profile_resync w).2.2).2 w0).2
      have hrec := fun (r : kaa_sync_request_t) (v : σ) =>
        ih r v e (decide (KAA_SERVICE_PROFILE ∈ rest)) g (by simpa using he) (by simp)
          (by simpa using hg)
      simp only [compile_services]
      split_ifs with c1 c2 c3 c4
      · rw [h1] at c1
        simp [loop_outcome, c1, h1]
      · rw [h1] at c1
        rw [h2] at c2
        rw [h3] at c3
        rw [h4] at c4
        simp only [ne_eq, not_not] at c1
        simp [loop_outcome, c1, c2, c3, c4, h4]
      · rw [h1] at c1
        rw [h2] at c2
        rw [h3] at c3
        rw [h4] at c4
        simp only [ne_eq, not_not] at c1 c4
        rw [hrec, h5]
        cases decide (KAA_SERVICE_PROFILE ∈ rest) <;> simp [loop_outcome, c1, c2, c3, c4]
      · rw [h1] at c1
        rw [h2] at c2
        rw [h3] at c3
        simp only [ne_eq, not_not] at c1
        simp [loop_outcome, c1, c2, c3]
      · rw [h1] at c1
        rw [h2] at c2
        simp only [ne_eq, not_not] at c1
        rw [hrec]
        cases decide (KAA_SERVICE_PROFILE ∈ rest) <;> simp [loop_outcome, c1, c2]
    | KAA_SERVICE_LOGGING =>
      have hg1 : g = true := hg.2 (List.mem_cons_self _ _)
      subst hg1
      simp only [compile_services]
      rw [ih _ _ e p (decide (KAA_SERVICE_LOGGING ∈ rest)) (by simpa using he)
        (by simpa using hp) (by simp), (hL w w0).2]
      rcases hlo : (env.kaa_logging_compile_request w0).2.1 with _ | d <;>
        cases decide (KAA_SERVICE_LOGGING ∈ rest) <;> cases e <;> cases p <;>
        simp [loop_outcome, hlo]
    | other t =>
      simp only [compile_services]
      exact ih _ _ e p g (by simpa using he) (by simpa using hp) (by simpa using hg)

/-- C20: `kaa_compile_request` walks the feature list from its last element to its first, yet
for collaborators whose results do not depend on the calls made before, its outcome depends
only on the set of tags in the list: any two feature lists holding the same tags, in any
order and with any repetitions, give the same value returned and the same envelope output
(the same request id, metadata, and presence and content of every section), or both no
envelope. -/
theorem feature_order_irrelevant {σ : Type} (env : Collaborators σ)
    (self : kaa_platform_protocol_t) (first second : List kaa_service_t) (w : σ)
    (hind : history_independent env) (htags : ∀ t, t ∈ first ↔ t ∈ second) :
    (kaa_compile_request env self first w).error =
      (kaa_compile_request env self second w).error ∧
    (kaa_compile_request env self first w).request_p =
      (kaa_compile_request env self second w).request_p := by
  cases hc : (env.kaa_sync_request_create w).1 with
  | false => simp [kaa_compile_request, hc]
  | true =>
    simp only [kaa_compile_request, hc, if_true]
    have h1 := compile_services_outcome env self.request_id w hind first.reverse
    have h2 := compile_services_outcome env self.request_id w hind second.reverse
    have key : ∀ (request : kaa_sync_request_t) (v : σ),
        ((compile_services env self.request_id first.reverse request v).error,
          (compile_services env self.request_id first.reverse request v).request_p) =
        ((compile_services env self.request_id second.reverse request v).error,
          (compile_services env self.request_id second.reverse request v).request_p) := by
      intro request v
      rw [h1 request v (decide (KAA_SERVICE_EVENT ∈ first))
          (decide (KAA_SERVICE_PROFILE ∈ first)) (decide (KAA_SERVICE_LOGGING ∈ first))
          (by simp) (by simp) (by simp),
        h2 request v (decide (KAA_SERVICE_EVENT ∈ first))
          (decide (KAA_SERVICE_PROFILE ∈ first)) (decide (KAA_SERVICE_LOGGING ∈ first))
          (by simp [htags]) (by simp [htags]) (by simp [htags])]
    have hk := key
      ⟨⟨BRANCH_0, some self.request_id⟩,
        ⟨BRANCH_0, some (create_sync_request_meta_data env (env.kaa_sync_request_create w).2).1⟩,
        ⟨BRANCH_0, (env.kaa_user_compile_request
          (create_sync_request_meta_data env (env.kaa_sync_request_create w).2).2.1
          self.request_id).2.1⟩,
        branch_1_create, branch_1_create, branch_1_create, branch_1_create, branch_1_create⟩
      (env.kaa_user_compile_request
        (create_sync_request_meta_data env (env.kaa_sync_request_create w).2).2.1
        self.request_id).2.2
    exact ⟨congrArg Prod.fst hk, congrArg Prod.snd hk⟩

/-- The statement of C20 at the feature lists (event, logging, event) and (logging, event),
with collaborators that answer alike in every world. -/
theorem feature_order_irrelevant_witness :
    history_independent (example_env (0, true) (0, some 9) (some 4) none) ∧
    (∀ t, t ∈ [KAA_SERVICE_EVENT, KAA_SERVICE_LOGGING, KAA_SERVICE_EVENT] ↔
      t ∈ [KAA_SERVICE_LOGGING, KAA_SERVICE_EVENT]) ∧
    (kaa_compile_request (example_env (0, true) (0, some 9) (some 4) none) ⟨1⟩
        [KAA_SERVICE_EVENT, KAA_SERVICE_LOGGING, KAA_SERVICE_EVENT] 0).error =
      (kaa_compile_request (example_env (0, true) (0, some 9) (some 4) none) ⟨1⟩
        [KAA_SERVICE_LOGGING, KAA_SERVICE_EVENT] 0).error ∧
    (kaa_compile_request (example_env (0, true) (0, some 9) (some 4) none) ⟨1⟩
        [KAA_SERVICE_EVENT, KAA_SERVICE_LOGGING, KAA_SERVICE_EVENT] 0).request_p =
      (kaa_compile_request (example_env (0, true) (0, some 9) (some 4) none) ⟨1⟩
        [KAA_SERVICE_LOGGING, KAA_SERVICE_EVENT] 0).request_p := by
  have hind : history_independent (example_env (0, true) (0, some 9) (some 4) none) :=
    ⟨fun _ _ _ => ⟨rfl, rfl⟩, fun _ _ => ⟨rfl, rfl⟩, fun _ _ => rfl, fun _ _ => ⟨rfl, rfl⟩,
      fun _ _ => ⟨rfl, rfl⟩⟩
  have htags : ∀ t, t ∈ [KAA_SERVICE_EVENT, KAA_SERVICE_LOGGING, KAA_SERVICE_EVENT] ↔
      t ∈ [KAA_SERVICE_LOGGING, KAA_SERVICE_EVENT] := by
    intro t
    simp only [List.mem_cons, List.mem_singleton, List.not_mem_nil, or_false]
    tauto
  exact ⟨hind, htags,
    feature_order_irrelevant (example_env (0, true) (0, some 9) (some 4) none) ⟨1⟩
      [KAA_SERVICE_EVENT, KAA_SERVICE_LOGGING, KAA_SERVICE_EVENT]
      [KAA_SERVICE_LOGGING, KAA_SERVICE_EVENT] 0 hind htags⟩

end Kaa
